import Mathlib

/-!
Shallow embedding of the plox interpreter (src/plox) and proofs about it.

Conventions used throughout:
* Python `float` is modelled as `Rat` (exact rationals).  Every Lox number
  appearing in the claims is exactly representable, and no claim depends on
  IEEE-754 rounding.
* Python-level failures that are not part of the Lox error channel
  (TypeError, IndexError, AttributeError, NotImplementedError, RuntimeError,
  RecursionError) are modelled by an explicit `PyExc` crash channel.
* Python `dict` is modelled as an association list without duplicate keys;
  updating an existing key keeps its position (insertion order semantics),
  a new key is appended.
* Loops and recursion are driven by an explicit fuel parameter; running out
  of fuel yields a `timeout` outcome that models a still-running execution.
-/

namespace Plox

/-- Token kinds.  The union of the members of the enum `TokenType` in
src/plox/tokens.py and src/plox/token.py.  `PRINT` is a member of the stale
token.py enum only; the scanner references `TokenType.PRINT` although it
imports the tokens.py enum, which has no such member (see
`inTokensPyEnum`). -/
inductive TokenType where
  | LEFT_PAREN | RIGHT_PAREN | LEFT_BRACE | RIGHT_BRACE | COLON | COMMA | DOT
  | MINUS | PLUS | QUESTION | SEMICOLON | SLASH | STAR
  | BANG | BANG_EQUAL | EQUAL | EQUAL_EQUAL
  | GREATER | GREATER_EQUAL | LESS | LESS_EQUAL
  | IDENTIFIER | STRING | NUMBER
  | AND | BREAK | CONTINUE | CLASS | ELSE | FALSE | FUN | FOR | IF | NIL | OR
  | RETURN | SUPER | THIS | TRUE | VAR | WHILE
  | COMMENT | EOF
  | PRINT
deriving DecidableEq, Repr

/-- `True` exactly for the members of the enum `TokenType` of
src/plox/tokens.py (the module the scanner and parser import).  `PRINT` is
absent there: `Scanner._KEYWORDS` mentions `TokenType.PRINT`, so evaluating
the scanner's class body raises `AttributeError`. -/
def inTokensPyEnum : TokenType → Bool
  | .PRINT => false
  | _ => true

/-- A token's literal payload: `Literal = Optional[Union[float, str]]`
(src/plox/type.py); the absent case is `Option.none` at the use sites. -/
inductive TokLit where
  | num (q : Rat)
  | str (s : String)
deriving DecidableEq, Repr

/-- `Token` from src/plox/tokens.py: a frozen dataclass with five fields
`_id, type, lexeme, literal, line`. -/
structure Token where
  id : Nat
  ttype : TokenType
  lexeme : String
  literal : Option TokLit
  line : Nat
deriving DecidableEq, Repr

/-- The value stored in a `Literal` expression node.  The parser stores
`True`, `False`, `None`, or the token's literal payload (a float or str). -/
inductive LitVal where
  | vnone
  | vbool (b : Bool)
  | num (q : Rat)
  | str (s : String)
deriving DecidableEq, Repr

/-- Expressions.  The first eight constructors are the frozen dataclasses of
src/plox/expr.py.  `call`, `getE`, `setE`, `thisE`, `superE` are modelled
from the spec: spec §3 lists `Call(callee, paren_token, args)`,
`Get(object, name_token)`, `Set(object, name_token, value_expr)`,
`This(keyword_token)`, `Super(keyword_token, method_name_token)`; these
classes are missing from src/plox/expr.py although the parser, resolver and
interpreter construct and visit them. -/
inductive Expr where
  | assign (name : Token) (value : Expr)
  | binary (left : Expr) (operator : Token) (right : Expr)
  | grouping (expression : Expr)
  | literal (value : LitVal)
  | logical (left : Expr) (operator : Token) (right : Expr)
  | ternary (left : Expr) (operator1 : Token) (center : Expr)
      (operator2 : Token) (right : Expr)
  | unary (op : Token) (right : Expr)
  | varE (name : Token)
  | call (callee : Expr) (paren : Token) (arguments : List Expr)
  | getE (obj : Expr) (name : Token)
  | setE (obj : Expr) (name : Token) (value : Expr)
  | thisE (keyword : Token)
  | superE (keyword : Token) (method : Token)
deriving Repr

/-- Statements, the frozen dataclasses of src/plox/stmt.py.  `classStmt` is
modelled from the spec: spec §3 lists `Class(name_token, optional
superclass_variable_expr, methods: ordered list of Function)`; the class is
missing from src/plox/stmt.py although the parser, resolver and interpreter
construct and visit it.  Its `methods` hold `function` statements.
`pyNone` is the Python `None` that `Parser._block` appends to a statement
list when `_declaration` recovers from a parse error inside a block
(`_block` does not filter `None`, unlike `parse`). -/
inductive Stmt where
  | pyNone
  | block (statements : List Stmt)
  | breakStmt (keyword : Token)
  | continueStmt (keyword : Token)
  | expression (expression : Expr)
  | function (name : Token) (parameters : List Token) (body : List Stmt)
  | ifStmt (condition : Expr) (thenBranch : Stmt) (elseBranch : Option Stmt)
  | returnStmt (keyword : Token) (value : Option Expr)
  | varStmt (name : Token) (initializer : Option Expr)
  | whileStmt (condition : Expr) (body : Stmt)
  | classStmt (name : Token) (superclass : Option Expr) (methods : List Stmt)
deriving Repr

mutual

/-- Structural equality on expressions: the `__eq__` generated for the frozen
dataclasses of expr.py, which compares all fields (tokens include their `_id`
field, so structurally equal tokens from different source positions differ). -/
def exprBeq : Expr → Expr → Bool
  | .assign n1 v1, .assign n2 v2 => n1 == n2 && exprBeq v1 v2
  | .binary l1 o1 r1, .binary l2 o2 r2 => exprBeq l1 l2 && o1 == o2 && exprBeq r1 r2
  | .grouping e1, .grouping e2 => exprBeq e1 e2
  | .literal v1, .literal v2 => v1 == v2
  | .logical l1 o1 r1, .logical l2 o2 r2 => exprBeq l1 l2 && o1 == o2 && exprBeq r1 r2
  | .ternary l1 a1 c1 b1 r1, .ternary l2 a2 c2 b2 r2 =>
      exprBeq l1 l2 && a1 == a2 && exprBeq c1 c2 && b1 == b2 && exprBeq r1 r2
  | .unary o1 r1, .unary o2 r2 => o1 == o2 && exprBeq r1 r2
  | .varE n1, .varE n2 => n1 == n2
  | .call c1 p1 a1, .call c2 p2 a2 => exprBeq c1 c2 && p1 == p2 && exprListBeq a1 a2
  | .getE o1 n1, .getE o2 n2 => exprBeq o1 o2 && n1 == n2
  | .setE o1 n1 v1, .setE o2 n2 v2 => exprBeq o1 o2 && n1 == n2 && exprBeq v1 v2
  | .thisE k1, .thisE k2 => k1 == k2
  | .superE k1 m1, .superE k2 m2 => k1 == k2 && m1 == m2
  | _, _ => false

def exprListBeq : List Expr → List Expr → Bool
  | [], [] => true
  | e1 :: r1, e2 :: r2 => exprBeq e1 e2 && exprListBeq r1 r2
  | _, _ => false

end

mutual

/-- Structural equality on statements: the `__eq__` generated for the frozen
dataclasses of stmt.py. -/
def stmtBeq : Stmt → Stmt → Bool
  | .pyNone, .pyNone => true
  | .block s1, .block s2 => stmtListBeq s1 s2
  | .breakStmt k1, .breakStmt k2 => k1 == k2
  | .continueStmt k1, .continueStmt k2 => k1 == k2
  | .expression e1, .expression e2 => exprBeq e1 e2
  | .function n1 p1 b1, .function n2 p2 b2 => n1 == n2 && p1 == p2 && stmtListBeq b1 b2
  | .ifStmt c1 t1 e1, .ifStmt c2 t2 e2 =>
      exprBeq c1 c2 && stmtBeq t1 t2 && optStmtBeq e1 e2
  | .returnStmt k1 v1, .returnStmt k2 v2 => k1 == k2 && optExprBeq v1 v2
  | .varStmt n1 i1, .varStmt n2 i2 => n1 == n2 && optExprBeq i1 i2
  | .whileStmt c1 b1, .whileStmt c2 b2 => exprBeq c1 c2 && stmtBeq b1 b2
  | .classStmt n1 s1 m1, .classStmt n2 s2 m2 =>
      n1 == n2 && optExprBeq s1 s2 && stmtListBeq m1 m2
  | _, _ => false

def stmtListBeq : List Stmt → List Stmt → Bool
  | [], [] => true
  | s1 :: r1, s2 :: r2 => stmtBeq s1 s2 && stmtListBeq r1 r2
  | _, _ => false

def optStmtBeq : Option Stmt → Option Stmt → Bool
  | none, none => true
  | some s1, some s2 => stmtBeq s1 s2
  | _, _ => false

def optExprBeq : Option Expr → Option Expr → Bool
  | none, none => true
  | some e1, some e2 => exprBeq e1 e2
  | _, _ => false

end

/-- The Python exceptions reachable in these modules outside the Lox error
channel. -/
inductive PyExc where
  | typeError
  | indexError
  | attributeError
  | notImplementedError
  | runtimeError
  | keyError
  | recursionError
deriving DecidableEq, Repr

/-- `LoxFunction` (src/plox/callable.py): frozen dataclass
`{declaration, closure, is_initializer}`.  The closure is a reference into
the environment arena of the interpreter state. -/
structure FuncD where
  declaration : Stmt
  closure : Nat
  isInitializer : Bool
deriving Repr

/-- `LoxClass` (src/plox/classes.py): frozen dataclass `{name, methods}`.
Note: the dataclass has no superclass field. -/
structure ClassD where
  name : String
  methods : List (String × FuncD)
deriving Repr

/-- `LoxClass.find_method` (src/plox/classes.py): `self.methods.get(name)`.
It consults only the class's own method map; the dataclass stores no
superclass, so there is no superclass chain to walk. -/
def findMethod (c : ClassD) (name : String) : Option FuncD :=
  c.methods.lookup name

/-- The native callables of src/plox/natives.py, one singleton object each. -/
inductive NativeKind where
  | Clock
  | Print
  | PrintLn
deriving DecidableEq, Repr

/-- Runtime values: `LoxValue = Optional[Union[bool, float, str, LoxCallable,
LoxInstance]]` (src/plox/type.py).  `vint` models a Python `int` (the `clock`
native returns `int(time.time())`, which is not a `float`).  Instances are
references into the instance arena of the interpreter state. -/
inductive Value where
  | vnil
  | vbool (b : Bool)
  | vnum (q : Rat)
  | vint (n : Int)
  | vstr (s : String)
  | vfunc (f : FuncD)
  | vclass (c : ClassD)
  | vinstance (ref : Nat)
  | vnative (k : NativeKind)
deriving Repr

/-- `LoxInstance` (src/plox/classes.py): frozen dataclass `{klass, fields}`;
`fields` is mutated in place by `set`. -/
structure InstD where
  klass : ClassD
  fields : List (String × Value)
deriving Repr

/-- Python `dict` assignment `d[k] = v`: overwrite in place if the key is
present, else append (insertion-order semantics). -/
def dictSet {α : Type} : List (String × α) → String → α → List (String × α)
  | [], k, v => [(k, v)]
  | (k', v') :: rest, k, v =>
      if k' = k then (k', v) :: rest else (k', v') :: dictSet rest k v

/-- `Environment` (src/plox/environment.py): frozen dataclass with an
optional enclosing frame and a name-to-value dict.  The enclosing link is a
reference into the environment arena (frames are shared by reference). -/
structure EnvD where
  enclosing : Option Nat
  values : List (String × Value)
deriving Repr

/-- Interpreter-owned mutable state: the environment arena (frames are
Python objects shared by reference), the instance arena, the `_GLOBALS`
frame reference, the `_environment` current-frame pointer, the `_locals`
distance table, accumulated stdout writes, and the wall clock read by the
`clock` native. -/
structure IState where
  envs : List EnvD
  insts : List InstD
  globalsRef : Nat
  envRef : Nat
  locals : List (Expr × Nat)
  output : List String
  clockVal : Int
deriving Repr

/-- `self._locals.get(expr)`: Python dicts key frozen dataclasses by their
structural hash and `__eq__`, hence the lookup compares expressions
structurally. -/
def localsGet (locals : List (Expr × Nat)) (e : Expr) : Option Nat :=
  match locals with
  | [] => none
  | (e', d) :: rest => if exprBeq e' e then some d else localsGet rest e

/-- Read a frame from the arena. -/
def getEnv (s : IState) (ref : Nat) : Option EnvD :=
  s.envs.get? ref

/-- Replace a frame in the arena (in-place mutation of a shared frame). -/
def setEnv (s : IState) (ref : Nat) (e : EnvD) : IState :=
  { s with envs := s.envs.set ref e }

/-- `Environment(enclosing)`: allocate a fresh frame; returns its
reference. -/
def allocEnv (s : IState) (enclosing : Option Nat) : Nat × IState :=
  (s.envs.length, { s with envs := s.envs ++ [⟨enclosing, []⟩] })

/-- `Environment.define(name, value)`: unconditional insert into the given
frame.  A dangling reference is a modelling impossibility and maps to the
Python crash channel at the call sites, so here it leaves the state
unchanged. -/
def envDefine (s : IState) (ref : Nat) (name : String) (v : Value) : IState :=
  match getEnv s ref with
  | none => s
  | some e => setEnv s ref { e with values := dictSet e.values name v }

/-- `Environment.initialize(name, token, value)` as implemented
(src/plox/environment.py line 20): `self.values[name.lexeme] = value`,
an unconditional insert with no duplicate check and no raise. -/
def envInitialize (s : IState) (ref : Nat) (name : Token) (v : Value) : IState :=
  envDefine s ref name.lexeme v

/-- Exceptions raised by environment operations: a Lox `RuntimeException`
carrying the offending token and message, or a Python-level crash. -/
inductive EnvErr where
  | rte (tok : Token) (msg : String)
  | pyErr (e : PyExc)
deriving Repr

/-- `Environment.get(token)`: look in this frame, else recurse into the
enclosing frame, else raise `RuntimeException "Undefined variable '…'."`.
The fuel bounds the chain walk (Python recursion). -/
def envGet (s : IState) (fuel : Nat) (ref : Nat) (name : Token) :
    Except EnvErr Value :=
  match fuel with
  | 0 => .error (.pyErr .recursionError)
  | fuel + 1 =>
    match getEnv s ref with
    | none => .error (.pyErr .attributeError)
    | some e =>
      match e.values.lookup name.lexeme with
      | some v => .ok v
      | none =>
        match e.enclosing with
        | some up => envGet s fuel up name
        | none =>
            .error (.rte name ("Undefined variable '" ++ name.lexeme ++ "'."))

/-- `Environment.assign(token, value)`: overwrite in the nearest frame
holding the name, else raise `RuntimeException "Undefined variable '…'"`
(no trailing period in the source message). -/
def envAssign (s : IState) (fuel : Nat) (ref : Nat) (name : Token)
    (v : Value) : Except EnvErr IState :=
  match fuel with
  | 0 => .error (.pyErr .recursionError)
  | fuel + 1 =>
    match getEnv s ref with
    | none => .error (.pyErr .attributeError)
    | some e =>
      if (e.values.lookup name.lexeme).isSome then
        .ok (setEnv s ref { e with values := dictSet e.values name.lexeme v })
      else
        match e.enclosing with
        | some up => envAssign s fuel up name v
        | none =>
            .error (.rte name ("Undefined variable '" ++ name.lexeme ++ "'"))

/-- `Environment._ancestor(distance)`: walk `distance` enclosing links.
`none` stands for the Python `AttributeError` that following a missing link
raises. -/
def envAncestor (s : IState) (ref : Nat) : Nat → Option Nat
  | 0 => some ref
  | d + 1 =>
    match getEnv s ref with
    | none => none
    | some e =>
      match e.enclosing with
      | none => none
      | some up => envAncestor s up d

/-- `Environment.get_at(distance, name)`: `self._ancestor(distance)
.values.get(name)` — note `dict.get`, so a missing name yields Python
`None`, i.e. Lox `nil`, not an error. -/
def envGetAt (s : IState) (ref : Nat) (distance : Nat) (name : String) :
    Except EnvErr Value :=
  match envAncestor s ref distance with
  | none => .error (.pyErr .attributeError)
  | some a =>
    match getEnv s a with
    | none => .error (.pyErr .attributeError)
    | some e => .ok ((e.values.lookup name).getD .vnil)

/-- `Environment.assign_at(distance, token, value)`. -/
def envAssignAt (s : IState) (ref : Nat) (distance : Nat) (name : Token)
    (v : Value) : Except EnvErr IState :=
  match envAncestor s ref distance with
  | none => .error (.pyErr .attributeError)
  | some a =>
    match getEnv s a with
    | none => .error (.pyErr .attributeError)
    | some e =>
        .ok (setEnv s a { e with values := dictSet e.values name.lexeme v })

/-- The numeric reading Python's `==` gives a value, if any: `bool` is a
subclass of `int`, and `bool`, `int` and `float` compare by numeric value
across kinds (`True == 1.0` is `True`). -/
def valueToRat : Value → Option Rat
  | .vbool b => some (if b then 1 else 0)
  | .vint n => some (n : Rat)
  | .vnum q => some q
  | _ => none

/-- `LoxFunction.__eq__` (frozen dataclass): compares declaration,
closure and `is_initializer`.  The declaration comparison is the structural
dataclass equality of AST nodes.  Python compares the closure `Environment`
objects structurally; here closures are arena references, which agrees with
Python whenever the two closures are the same frame object — the only case
arising in this development. -/
def funcBeq (f1 f2 : FuncD) : Bool :=
  stmtBeq f1.declaration f2.declaration && f1.closure == f2.closure &&
    f1.isInitializer == f2.isInitializer

/-- Python `dict` equality for method maps: same key set,
equal values (order-insensitive); the maps are duplicate-free. -/
def fdictBeq (a b : List (String × FuncD)) : Bool :=
  a.length == b.length &&
    a.all (fun kv =>
      match b.lookup kv.1 with
      | some f => funcBeq kv.2 f
      | none => false)

/-- `LoxClass.__eq__` (frozen dataclass): name and method map. -/
def classBeq (c1 c2 : ClassD) : Bool :=
  c1.name == c2.name && fdictBeq c1.methods c2.methods

mutual

/-- Python `==` on Lox runtime values, which is exactly what
`Interpreter._is_equal` evaluates (src/plox/interpreter.py line 276:
`return a == b`).  `nil`/strings compare value-wise; `bool`/`int`/`float`
compare numerically across kinds; functions, classes and instances are
frozen dataclasses, so they compare structurally (instance `fields` values
recursively).  `none` models the `RecursionError` Python raises when the
structural comparison runs into a cyclic instance graph; the fuel at the
call sites covers every acyclic chain. -/
def pyEq (s : IState) : Nat → Value → Value → Option Bool
  | 0, _, _ => none
  | fuel + 1, a, b =>
    match a, b with
    | .vnil, .vnil => some true
    | .vstr s1, .vstr s2 => some (s1 == s2)
    | .vfunc f1, .vfunc f2 => some (funcBeq f1 f2)
    | .vclass c1, .vclass c2 => some (classBeq c1 c2)
    | .vnative k1, .vnative k2 => some (k1 == k2)
    | .vinstance r1, .vinstance r2 =>
      match s.insts.get? r1, s.insts.get? r2 with
      | some i1, some i2 =>
        if classBeq i1.klass i2.klass then
          if i1.fields.length == i2.fields.length then
            pyFieldsEq s fuel i1.fields i2.fields
          else some false
        else some false
      | _, _ => none
    | _, _ =>
      match valueToRat a, valueToRat b with
      | some q1, some q2 => some (q1 == q2)
      | _, _ => some false

/-- Python `dict` equality on instance fields (order-insensitive, values
compared with `==` recursively).  The caller has already checked equal
sizes, and the dicts are duplicate-free. -/
def pyFieldsEq (s : IState) : Nat → List (String × Value) →
    List (String × Value) → Option Bool
  | 0, _, _ => none
  | _ + 1, [], _ => some true
  | fuel + 1, (k, v) :: rest, b =>
    match b.lookup k with
    | none => some false
    | some w =>
      match pyEq s fuel v w with
      | none => none
      | some false => some false
      | some true => pyFieldsEq s fuel rest b

end

/-- `Interpreter._is_equal(a, b) = (a == b)`, with enough fuel for every
acyclic chain of instance references and fields in the arena (an acyclic
comparison path visits each instance and each field at most once). -/
def isEqual (s : IState) (a b : Value) : Option Bool :=
  pyEq s (s.insts.length + s.insts.foldl (fun a i => a + i.fields.length) 0 + 1)
    a b

/-- `Interpreter._is_truthy`: `None` and `False` are falsy, every other
value (including `0` and `""`) is truthy. -/
def isTruthy : Value → Bool
  | .vnil => false
  | .vbool b => b
  | _ => true

/-- Rendering of a number by `Interpreter.stringify`: `str(value)` with a
trailing `.0` stripped.  An integral value prints as its digits exactly as
in Python; the non-integral rendering is a stand-in (Python prints the
decimal expansion of the double) and is never inspected by a theorem. -/
def ratRepr (q : Rat) : String :=
  if q.den = 1 then toString q.num
  else toString q.num ++ "/" ++ toString q.den

/-- `Interpreter.stringify` (src/plox/interpreter.py), together with the
`__str__` methods of the runtime value classes it falls back to. -/
def stringify (s : IState) : Value → String
  | .vnil => "nil"
  | .vnum q => ratRepr q
  | .vbool b => if b then "true" else "false"
  | .vint n => toString n
  | .vstr t => t
  | .vfunc f =>
      "<fn " ++
        (match f.declaration with
         | .function n _ _ => n.lexeme
         | _ => "") ++ ">"
  | .vclass c => "<" ++ c.name ++ ">"
  | .vinstance r =>
      match s.insts.get? r with
      | some i => "<" ++ i.klass.name ++ " instance>"
      | none => "<instance>"
  | .vnative _ => "<native fn>"

/-- Non-local transfers and failures flowing out of evaluation: the
`Return`/`Break`/`Continue` exceptions of src/plox/exceptions.py, the Lox
`RuntimeException`, and Python-level crashes. -/
inductive Signal where
  | retSig (v : Value)
  | brkSig
  | cntSig
  | rte (tok : Token) (msg : String)
  | pyErr (e : PyExc)
deriving Repr

/-- Outcome of an evaluation step: a value with the post-state, an escaping
signal, or fuel exhaustion (a still-running execution). -/
inductive IRes (α : Type) where
  | ok (a : α) (s : IState)
  | exc (e : Signal) (s : IState)
  | timeout (s : IState)
deriving Repr

/-- Sequencing: propagate signals and timeouts. -/
def bindR {α β : Type} (r : IRes α) (f : α → IState → IRes β) : IRes β :=
  match r with
  | .ok a s => f a s
  | .exc e s => .exc e s
  | .timeout s => .timeout s

/-- Lift an environment-operation result into evaluation. -/
def liftEnv {α : Type} (s : IState) (r : Except EnvErr α)
    (f : α → IRes Value) : IRes Value :=
  match r with
  | .ok a => f a
  | .error (.rte tok msg) => .exc (.rte tok msg) s
  | .error (.pyErr e) => .exc (.pyErr e) s

/-- `Interpreter._lookup_variable(name, expr)`: a resolved distance uses
`get_at` on the current frame, otherwise the token is read from
`_GLOBALS`. -/
def lookupVariable (s : IState) (name : Token) (e : Expr) : IRes Value :=
  match localsGet s.locals e with
  | none => liftEnv s (envGet s (s.envs.length + 1) s.globalsRef name)
      (fun v => .ok v s)
  | some d => liftEnv s (envGetAt s s.envRef d name.lexeme)
      (fun v => .ok v s)

/-- Arity of a callable, `None` when the callee is not a `LoxCallable`.
For a `LoxFunction` the arity is `len(self.declaration.parameters)`; for a
`LoxClass` the arity of `init` if present else 0; natives carry fixed
arities.  `Except` carries the `AttributeError` of reading `.parameters`
off a non-function declaration (never reachable). -/
def funcArity (f : FuncD) : Except PyExc Nat :=
  match f.declaration with
  | .function _ ps _ => .ok ps.length
  | _ => .error .attributeError

def valueArity : Value → Option (Except PyExc Nat)
  | .vfunc f => some (funcArity f)
  | .vclass c =>
    some (match findMethod c "init" with
          | none => .ok 0
          | some i => funcArity i)
  | .vnative .Clock => some (.ok 0)
  | .vnative .Print => some (.ok 1)
  | .vnative .PrintLn => some (.ok 1)
  | _ => none

/-- `LoxFunction.bind(instance)` generalized to any `this` value (the
interpreter also binds `super` lookups): a fresh frame enclosing the
closure, holding `this`. -/
def bindThis (s : IState) (f : FuncD) (thisVal : Value) : FuncD × IState :=
  let (ref, s1) := allocEnv s (some f.closure)
  let s2 := envDefine s1 ref "this" thisVal
  (⟨f.declaration, ref, f.isInitializer⟩, s2)

/-- The body of `Interpreter.visit_class_stmt`'s method-table loop:
`LoxFunction(method, self._environment, method.name.lexeme == 'init')`,
inserted under the method's name.  A non-`function` entry would crash with
`AttributeError` reading `.name`. -/
def buildMethods (env : Nat) : List Stmt → List (String × FuncD) →
    Except PyExc (List (String × FuncD))
  | [], acc => .ok acc
  | m :: rest, acc =>
    match m with
    | .function n _ _ =>
        buildMethods env rest
          (dictSet acc n.lexeme ⟨m, env, n.lexeme == "init"⟩)
    | _ => .error .attributeError

/-- `isinstance(value, str)`. -/
def isStrVal : Value → Bool
  | .vstr _ => true
  | _ => false

/-- The value a `Literal` expression evaluates to
(`visit_literal_expr` returns `expr.value`). -/
def litToValue : LitVal → Value
  | .vnone => .vnil
  | .vbool b => .vbool b
  | .num q => .vnum q
  | .str s => .vstr s

/-- Parameter binding in `LoxFunction.call`:
`for param, arg in zip(parameters, arguments): env.define(...)` —
`zip` stops at the shorter list. -/
def defineParams (s : IState) (ref : Nat) :
    List Token → List Value → IState
  | p :: ps, a :: rest => defineParams (envDefine s ref p.lexeme a) ref ps rest
  | _, _ => s

/-- `return self.closure.get_at(0, 'this')` in `LoxFunction.call`. -/
def initThisResult (s : IState) (fd : FuncD) : IRes Value :=
  match envGetAt s fd.closure 0 "this" with
  | .ok v => .ok v s
  | .error (.rte t m) => .exc (.rte t m) s
  | .error (.pyErr e) => .exc (.pyErr e) s

/-- Tail of `Interpreter.visit_class_stmt` after the superclass has been
evaluated and checked: define the class name as `nil`, push a frame holding
`super` when inheriting, build the method table — and then the source
executes `LoxClass(stmt.name.lexeme, superclass, methods)`.  The `LoxClass`
frozen dataclass of src/plox/classes.py has exactly two fields
`(name, methods)`, so this three-argument construction raises `TypeError`;
the environment pop and the final name assignment are unreachable, and
the current-frame pointer is left at the pushed `super` frame. -/
def classFinish (s : IState) (n : Token) (sup : Option ClassD)
    (methods : List Stmt) : IRes Unit :=
  let s1 := envDefine s s.envRef n.lexeme .vnil
  let (envForMethods, s2) :=
    match sup with
    | some c =>
      let (r, sa) := allocEnv s1 (some s1.envRef)
      let sb := envDefine sa r "super" (.vclass c)
      (r, { sb with envRef := r })
    | none => (s1.envRef, s1)
  match buildMethods envForMethods methods [] with
  | .error e => .exc (.pyErr e) s2
  | .ok _ => .exc (.pyErr .typeError) s2

mutual

/-- `Interpreter._evaluate` / the `visit_*_expr` methods of
src/plox/interpreter.py, with an explicit fuel. -/
def evalExpr : Nat → Expr → IState → IRes Value
  | 0, _, s => .timeout s
  | fuel + 1, e, s =>
    match e with
    | .literal v => .ok (litToValue v) s
    | .grouping inner => evalExpr fuel inner s
    | .varE name => lookupVariable s name (.varE name)
    | .thisE kw => lookupVariable s kw (.thisE kw)
    | .assign name value =>
      bindR (evalExpr fuel value s) fun v s1 =>
      match localsGet s1.locals (.assign name value) with
      | none =>
        match envAssign s1 (s1.envs.length + 1) s1.globalsRef name v with
        | .ok s2 => .ok v s2
        | .error (.rte t m) => .exc (.rte t m) s1
        | .error (.pyErr pe) => .exc (.pyErr pe) s1
      | some d =>
        match envAssignAt s1 s1.envRef d name v with
        | .ok s2 => .ok v s2
        | .error (.rte t m) => .exc (.rte t m) s1
        | .error (.pyErr pe) => .exc (.pyErr pe) s1
    | .unary op r =>
      bindR (evalExpr fuel r s) fun rv s1 =>
      match op.ttype with
      | .MINUS =>
        match rv with
        | .vnum q => .ok (.vnum (-q)) s1
        | _ => .exc (.rte op "Operands must be numbers.") s1
      | .BANG => .ok (.vbool (!isTruthy rv)) s1
      | _ => .exc (.pyErr .runtimeError) s1
    | .logical l op r =>
      bindR (evalExpr fuel l s) fun lv s1 =>
      if op.ttype == .OR && isTruthy lv then .ok lv s1
      else if op.ttype == .AND && !isTruthy lv then .ok lv s1
      else evalExpr fuel r s1
    | .ternary l op1 c op2 r =>
      if op1.ttype == .QUESTION && op2.ttype == .COLON then
        bindR (evalExpr fuel l s) fun pred s1 =>
        if isTruthy pred then evalExpr fuel c s1 else evalExpr fuel r s1
      else .exc (.pyErr .runtimeError) s
    | .binary l op r =>
      bindR (evalExpr fuel l s) fun left s1 =>
      bindR (evalExpr fuel r s1) fun right s2 =>
      match op.ttype with
      | .BANG_EQUAL =>
        match isEqual s2 left right with
        | none => .exc (.pyErr .recursionError) s2
        | some b => .ok (.vbool (!b)) s2
      | .EQUAL_EQUAL =>
        match isEqual s2 left right with
        | none => .exc (.pyErr .recursionError) s2
        | some b => .ok (.vbool b) s2
      | .GREATER =>
        match left, right with
        | .vnum a, .vnum b => .ok (.vbool (decide (a > b))) s2
        | _, _ => .exc (.rte op "Operands must be numbers.") s2
      | .GREATER_EQUAL =>
        match left, right with
        | .vnum a, .vnum b => .ok (.vbool (decide (a ≥ b))) s2
        | _, _ => .exc (.rte op "Operands must be numbers.") s2
      | .LESS =>
        match left, right with
        | .vnum a, .vnum b => .ok (.vbool (decide (a < b))) s2
        | _, _ => .exc (.rte op "Operands must be numbers.") s2
      | .LESS_EQUAL =>
        match left, right with
        | .vnum a, .vnum b => .ok (.vbool (decide (a ≤ b))) s2
        | _, _ => .exc (.rte op "Operands must be numbers.") s2
      | .MINUS =>
        match left, right with
        | .vnum a, .vnum b => .ok (.vnum (a - b)) s2
        | _, _ => .exc (.rte op "Operands must be numbers.") s2
      | .SLASH =>
        match left, right with
        | .vnum a, .vnum b =>
          if b == 0 then .exc (.rte op "Division by zero.") s2
          else .ok (.vnum (a / b)) s2
        | _, _ => .exc (.rte op "Operands must be numbers.") s2
      | .STAR =>
        match left, right with
        | .vnum a, .vnum b => .ok (.vnum (a * b)) s2
        | _, _ => .exc (.rte op "Operands must be numbers.") s2
      | .PLUS =>
        match left, right with
        | .vnum a, .vnum b => .ok (.vnum (a + b)) s2
        | la, rb =>
          if isStrVal la || isStrVal rb then
            .ok (.vstr (stringify s2 la ++ stringify s2 rb)) s2
          else .exc (.rte op "Incompatible operands.") s2
      | .COMMA =>
        -- the COMMA branch of visit_binary_expr evaluates expr.left again
        -- and returns a fresh evaluation of expr.right
        bindR (evalExpr fuel l s2) fun _ s3 => evalExpr fuel r s3
      | _ => .exc (.pyErr .runtimeError) s2
    | .call callee paren args =>
      bindR (evalExpr fuel callee s) fun cv s1 =>
      bindR (evalArgList fuel args s1) fun avs s2 =>
      match valueArity cv with
      | none => .exc (.rte paren "Can only call functions and classes.") s2
      | some (.error pe) => .exc (.pyErr pe) s2
      | some (.ok n) =>
        if avs.length ≠ n then
          .exc (.rte paren ("Expected " ++ toString n ++
            " arguments, but got " ++ toString avs.length ++ ".")) s2
        else callValue fuel cv avs s2
    | .getE o name =>
      bindR (evalExpr fuel o s) fun ov s1 =>
      match ov with
      | .vinstance r =>
        match s1.insts.get? r with
        | none => .exc (.pyErr .indexError) s1
        | some i =>
          match i.fields.lookup name.lexeme with
          | some v => .ok v s1
          | none =>
            match findMethod i.klass name.lexeme with
            | some m =>
              let (bf, s2) := bindThis s1 m (.vinstance r)
              .ok (.vfunc bf) s2
            | none =>
                .exc (.rte name
                  ("Undefined property '" ++ name.lexeme ++ "'.")) s1
      | _ => .exc (.rte name "Only instances have properties") s1
    | .setE o name v =>
      bindR (evalExpr fuel o s) fun ov s1 =>
      match ov with
      | .vinstance r =>
        bindR (evalExpr fuel v s1) fun vv s2 =>
        match s2.insts.get? r with
        | none => .exc (.pyErr .indexError) s2
        | some i =>
            let i2 := { i with fields := dictSet i.fields name.lexeme vv }
            .ok vv { s2 with insts := s2.insts.set r i2 }
      | _ => .exc (.rte name "Only instances have fields.") s1
    | .superE kw method =>
      match localsGet s.locals (.superE kw method) with
      | none => .exc (.pyErr .keyError) s
      | some d =>
        -- `self._environment.get_at(distance - 1, 'this')`: in Python a
        -- distance of 0 gives -1, and range(-1) is empty, so the walk stays
        -- at the current frame — the same as Nat subtraction here.
        match envGetAt s s.envRef d "super" with
        | .error (.rte t m) => .exc (.rte t m) s
        | .error (.pyErr pe) => .exc (.pyErr pe) s
        | .ok sup =>
          match envGetAt s s.envRef (d - 1) "this" with
          | .error (.rte t m) => .exc (.rte t m) s
          | .error (.pyErr pe) => .exc (.pyErr pe) s
          | .ok obj =>
            match sup with
            | .vclass c =>
              match findMethod c method.lexeme with
              | none =>
                  .exc (.rte method
                    ("Undefined property '" ++ method.lexeme ++ "'.")) s
              | some m =>
                let (bf, s2) := bindThis s m obj
                .ok (.vfunc bf) s2
            | _ => .exc (.pyErr .runtimeError) s

/-- Left-to-right evaluation of call arguments. -/
def evalArgList : Nat → List Expr → IState → IRes (List Value)
  | 0, _, s => .timeout s
  | _ + 1, [], s => .ok [] s
  | fuel + 1, e :: rest, s =>
    bindR (evalExpr fuel e s) fun v s1 =>
    bindR (evalArgList fuel rest s1) fun vs s2 => .ok (v :: vs) s2

/-- `Interpreter._execute` / the `visit_*_stmt` methods. -/
def execStmt : Nat → Stmt → IState → IRes Unit
  | 0, _, s => .timeout s
  | fuel + 1, st, s =>
    match st with
    | .pyNone => .exc (.pyErr .attributeError) s
    | .block stmts =>
      let (ref, s1) := allocEnv s (some s.envRef)
      execBlock fuel stmts ref s1
    | .breakStmt _ => .exc .brkSig s
    | .continueStmt _ => .exc .cntSig s
    | .expression e => bindR (evalExpr fuel e s) fun _ s1 => .ok () s1
    | .function n ps b =>
        .ok () (envDefine s s.envRef n.lexeme
          (.vfunc ⟨.function n ps b, s.envRef, false⟩))
    | .ifStmt c t els =>
      bindR (evalExpr fuel c s) fun cv s1 =>
      if isTruthy cv then execStmt fuel t s1
      else
        match els with
        | some es => execStmt fuel es s1
        | none => .ok () s1
    | .returnStmt _ v =>
      match v with
      | none => .exc (.retSig .vnil) s
      | some ve => bindR (evalExpr fuel ve s) fun vv s1 => .exc (.retSig vv) s1
    | .varStmt n init =>
      match init with
      | none => .ok () (envInitialize s s.envRef n .vnil)
      | some ie =>
          bindR (evalExpr fuel ie s) fun v s1 =>
            .ok () (envInitialize s1 s1.envRef n v)
    | .whileStmt c b => whileLoop fuel c b s
    | .classStmt n sup methods =>
      match sup with
      | none => classFinish s n none methods
      | some se =>
        bindR (evalExpr fuel se s) fun sv s1 =>
        match sv with
        | .vclass c => classFinish s1 n (some c) methods
        | _ =>
          match se with
          | .varE t => .exc (.rte t "Superclass must be a class.") s1
          | _ => .exc (.pyErr .attributeError) s1

/-- The statement loop of `Interpreter.interpret` /
`Resolver`-free sequential execution. -/
def execSeq : Nat → List Stmt → IState → IRes Unit
  | 0, _, s => .timeout s
  | _ + 1, [], s => .ok () s
  | fuel + 1, st :: rest, s =>
    bindR (execStmt fuel st s) fun _ s1 => execSeq fuel rest s1

/-- `Interpreter.execute_block(stmts, env)`: save the current-frame
pointer, switch to `env`, run the statements, and restore the pointer in a
`finally`, i.e. on every exit path.  The restore is applied on the timeout
channel as well: fuel exhaustion stands for a still-running execution,
which has no observable exit at all. -/
def execBlock : Nat → List Stmt → Nat → IState → IRes Unit
  | 0, _, _, s => .timeout s
  | fuel + 1, stmts, ref, s =>
    let prev := s.envRef
    match execSeq fuel stmts { s with envRef := ref } with
    | .ok a s1 => .ok a { s1 with envRef := prev }
    | .exc e s1 => .exc e { s1 with envRef := prev }
    | .timeout s1 => .timeout { s1 with envRef := prev }

/-- The loop of `Interpreter.visit_while_stmt`: re-test the condition,
execute the body, `except Break: break`, `except Continue: continue`. -/
def whileLoop : Nat → Expr → Stmt → IState → IRes Unit
  | 0, _, _, s => .timeout s
  | fuel + 1, c, b, s =>
    bindR (evalExpr fuel c s) fun cv s1 =>
    if isTruthy cv then
      match execStmt fuel b s1 with
      | .ok _ s2 => whileLoop fuel c b s2
      | .exc .brkSig s2 => .ok () s2
      | .exc .cntSig s2 => whileLoop fuel c b s2
      | .exc e s2 => .exc e s2
      | .timeout s2 => .timeout s2
    else .ok () s1

/-- `LoxFunction.call`: a frame for the parameters as a child of the
closure, the body run via `execute_block` in a further child frame
(`Environment(env)` in the source), `Return` caught, and the initializer
convention applied. -/
def funcCall : Nat → FuncD → List Value → IState → IRes Value
  | 0, _, _, s => .timeout s
  | fuel + 1, fd, args, s =>
  match fd.declaration with
  | .function _ ps body =>
    let (envRef1, s1) := allocEnv s (some fd.closure)
    let s2 := defineParams s1 envRef1 ps args
    let (envRef2, s3) := allocEnv s2 (some envRef1)
    match execBlock fuel body envRef2 s3 with
    | .ok _ s4 =>
        if fd.isInitializer then initThisResult s4 fd else .ok .vnil s4
    | .exc (.retSig v) s4 =>
        if fd.isInitializer then initThisResult s4 fd else .ok v s4
    | .exc e s4 => .exc e s4
    | .timeout s4 => .timeout s4
  | _ => .exc (.pyErr .attributeError) s

/-- `LoxCallable.call` dispatch: `LoxFunction.call`, `LoxClass.call`
(allocate an instance, run a bound `init` if present, return the instance)
and the natives of src/plox/natives.py. -/
def callValue : Nat → Value → List Value → IState → IRes Value
  | 0, _, _, s => .timeout s
  | fuel + 1, cv, args, s =>
  match cv with
  | .vfunc fd => funcCall fuel fd args s
  | .vclass c =>
    let ref := s.insts.length
    let s1 := { s with insts := s.insts ++ [⟨c, []⟩] }
    match findMethod c "init" with
    | none => .ok (.vinstance ref) s1
    | some init =>
      let (bf, s2) := bindThis s1 init (.vinstance ref)
      bindR (funcCall fuel bf args s2) fun _ s3 => .ok (.vinstance ref) s3
  | .vnative .Clock => .ok (.vint s.clockVal) s
  | .vnative .Print =>
    -- arguments[0] is safe: the arity check has already passed
    let out := stringify s (args.getD 0 .vnil)
    .ok .vnil { s with output := s.output ++ [out] }
  | .vnative .PrintLn =>
    let out := stringify s (args.getD 0 .vnil) ++ "\n"
    .ok .vnil { s with output := s.output ++ [out] }
  | _ => .exc (.pyErr .attributeError) s

end

/-- `Interpreter.__init__`: globals hold the three natives; the
current-frame pointer starts at globals; the distance table is empty.  The
clock value parameterizes the external wall clock. -/
def initState (clock : Int) : IState :=
  { envs := [⟨none,
      [("clock", .vnative .Clock), ("print", .vnative .Print),
       ("println", .vnative .PrintLn)]⟩],
    insts := [], globalsRef := 0, envRef := 0, locals := [], output := [],
    clockVal := clock }

/-!  ## Scanner (src/plox/scanner.py)  -/

/-- `Scanner._KEYWORDS` exactly as written in src/plox/scanner.py lines
12-29: sixteen entries, including `'print': TokenType.PRINT`, and with no
entry for `break` or `continue`. -/
def scannerKeywords : List (String × TokenType) :=
  [("and", .AND), ("class", .CLASS), ("else", .ELSE), ("false", .FALSE),
   ("for", .FOR), ("fun", .FUN), ("if", .IF), ("nil", .NIL), ("or", .OR),
   ("print", .PRINT), ("return", .RETURN), ("super", .SUPER),
   ("this", .THIS), ("true", .TRUE), ("var", .VAR), ("while", .WHILE)]

/-- Whether every token type mentioned by `Scanner._KEYWORDS` is a member
of the `TokenType` enum the scanner imports (src/plox/tokens.py).  `False`
means evaluating the scanner's class body raises `AttributeError` — the
module cannot even be imported. -/
def keywordTableResolves : Bool :=
  scannerKeywords.all (fun p => inTokensPyEnum p.snd)

/-- `Scanner._identifier`'s classification of a completed identifier-shaped
lexeme: `Scanner._KEYWORDS.get(text) or TokenType.IDENTIFIER`. -/
def idTokenType (text : String) : TokenType :=
  (scannerKeywords.lookup text).getD .IDENTIFIER

/-- Scanner state: `_source`, `_start`, `_current`, `_line`, and the lines
and messages reported through `lox.Lox.error_line`. -/
structure ScanState where
  source : List Char
  start : Nat
  current : Nat
  line : Nat
  errors : List (Nat × String)
deriving Repr

/-- Scanner outcome: normal completion, a Python crash
(IndexError / TypeError / NotImplementedError), or fuel exhaustion. -/
inductive ScanRes (α : Type) where
  | ok (a : α) (s : ScanState)
  | crash (e : PyExc) (s : ScanState)
  | scanTimeout (s : ScanState)
deriving Repr

/-- `Scanner._is_at_end`. -/
def scIsAtEnd (s : ScanState) : Bool :=
  s.current ≥ s.source.length

/-- `Scanner._peek`: the current character, `'\0'` at the end. -/
def scPeek (s : ScanState) : Char :=
  if scIsAtEnd s then '\x00' else s.source.getD s.current '\x00'

/-- `Scanner._peek_next`. -/
def scPeekNext (s : ScanState) : Char :=
  if s.current + 1 ≥ s.source.length then '\x00'
  else s.source.getD (s.current + 1) '\x00'

/-- `Scanner._advance`: increment `_current`, then read
`source[_current - 1]` — an `IndexError` when the scanner advances past the
end (which `_string` does on an unterminated string). -/
def scAdvance (s : ScanState) : ScanRes Char :=
  let s1 := { s with current := s.current + 1 }
  match s.source.get? (s1.current - 1) with
  | some c => .ok c s1
  | none => .crash .indexError s1

/-- `Scanner._match(expected)`. -/
def scMatch (s : ScanState) (expected : Char) : Bool × ScanState :=
  if scIsAtEnd s then (false, s)
  else if s.source.getD s.current '\x00' ≠ expected then (false, s)
  else (true, { s with current := s.current + 1 })

/-- `source[a:b]` as a string. -/
def scSlice (s : ScanState) (a b : Nat) : String :=
  String.mk ((s.source.drop a).take (b - a))

/-- `Scanner._add_token`: the scanner calls
`Token(token_type, text, literal, self._line)` — four positional arguments
— but `Token` of src/plox/tokens.py is a frozen dataclass with five fields
`(_id, type, lexeme, literal, line)`, so every call raises `TypeError`
before any token is appended. -/
def scAddToken (s : ScanState) (_tt : TokenType) (_lit : Option TokLit) :
    ScanRes Unit :=
  .crash .typeError s

/-- The loop of `Scanner._line_comment`: consume to (not including) the
next newline. -/
def scLineComment : Nat → ScanState → ScanRes Unit
  | 0, s => .scanTimeout s
  | fuel + 1, s =>
    if scPeek s ≠ '\n' && !scIsAtEnd s then
      match scAdvance s with
      | .ok _ s1 => scLineComment fuel s1
      | .crash e s1 => .crash e s1
      | .scanTimeout s1 => .scanTimeout s1
    else .ok () s

/-- `Scanner._identifier`: consume alphabetic characters, then classify the
lexeme against `_KEYWORDS` and add the token.  (Python's `str.isalpha` is
modelled by `Char.isAlpha`; the sources scanned here are ASCII, where the
two agree.) -/
def scIdent : Nat → ScanState → ScanRes Unit
  | 0, s => .scanTimeout s
  | fuel + 1, s =>
    if (scPeek s).isAlpha then
      match scAdvance s with
      | .ok _ s1 => scIdent fuel s1
      | .crash e s1 => .crash e s1
      | .scanTimeout s1 => .scanTimeout s1
    else
      scAddToken s (idTokenType (scSlice s s.start s.current)) none

/-- Numeric value of a digit run. -/
def digitsVal (cs : List Char) : Nat :=
  cs.foldl (fun a c => a * 10 + (c.toNat - 48)) 0

/-- `float(source[start:current])` on a decimal numeral. -/
def parseNumLit (cs : List Char) : Rat :=
  let ip := cs.takeWhile (· ≠ '.')
  let rest := cs.dropWhile (· ≠ '.')
  match rest with
  | [] => (digitsVal ip : Rat)
  | _ :: frac =>
      (digitsVal ip : Rat) + (digitsVal frac : Rat) / ((10 : Rat) ^ frac.length)

/-- Digit-consuming loop of `Scanner._number` (Python `str.isnumeric`,
which agrees with `Char.isDigit` on ASCII). -/
def scDigits : Nat → ScanState → ScanRes Unit
  | 0, s => .scanTimeout s
  | fuel + 1, s =>
    if (scPeek s).isDigit then
      match scAdvance s with
      | .ok _ s1 => scDigits fuel s1
      | .crash e s1 => .crash e s1
      | .scanTimeout s1 => .scanTimeout s1
    else .ok () s

/-- `Scanner._number`. -/
def scNumber (fuel : Nat) (s : ScanState) : ScanRes Unit :=
  match scDigits fuel s with
  | .crash e s1 => .crash e s1
  | .scanTimeout s1 => .scanTimeout s1
  | .ok _ s1 =>
    if scPeek s1 = '.' && (scPeekNext s1).isDigit then
      match scAdvance s1 with
      | .crash e s2 => .crash e s2
      | .scanTimeout s2 => .scanTimeout s2
      | .ok _ s2 =>
        match scDigits fuel s2 with
        | .crash e s3 => .crash e s3
        | .scanTimeout s3 => .scanTimeout s3
        | .ok _ s3 =>
            scAddToken s3 .NUMBER
              (some (.num (parseNumLit ((s3.source.drop s3.start).take
                (s3.current - s3.start)))))
    else
      scAddToken s1 .NUMBER
        (some (.num (parseNumLit ((s1.source.drop s1.start).take
          (s1.current - s1.start)))))

/-- The loop of `Scanner._string`.  The source line is
`while c := self._peek() != '"' and not self._is_at_end:` — the walrus
binds `c` to the whole boolean condition, so the body's
`if c == '\n': self._line += 1` compares a `bool` to a character and never
fires: no line counting happens inside strings. -/
def scStringLoop : Nat → ScanState → ScanRes Unit
  | 0, s => .scanTimeout s
  | fuel + 1, s =>
    if scPeek s ≠ '"' && !scIsAtEnd s then
      match scAdvance s with
      | .ok _ s1 => scStringLoop fuel s1
      | .crash e s1 => .crash e s1
      | .scanTimeout s1 => .scanTimeout s1
    else .ok () s

/-- `Scanner._string`: consume up to the closing quote; on an unterminated
string report the lex error — and then still execute `self._advance()`,
which reads `source[len(source)]`: an `IndexError`.  On the terminated path
`_add_token` raises `TypeError` (see `scAddToken`). -/
def scString (fuel : Nat) (s : ScanState) : ScanRes Unit :=
  match scStringLoop fuel s with
  | .crash e s1 => .crash e s1
  | .scanTimeout s1 => .scanTimeout s1
  | .ok _ s1 =>
    let s2 :=
      if scIsAtEnd s1 then
        { s1 with errors := s1.errors ++ [(s1.line, "Unterminated string.")] }
      else s1
    match scAdvance s2 with
    | .crash e s3 => .crash e s3
    | .scanTimeout s3 => .scanTimeout s3
    | .ok _ s3 =>
        scAddToken s3 .STRING
          (some (.str (scSlice s3 (s3.start + 1) (s3.current - 1))))

/-- `Scanner._scan_token`. -/
def scanToken (fuel : Nat) (s : ScanState) : ScanRes Unit :=
  match scAdvance s with
  | .crash e s1 => .crash e s1
  | .scanTimeout s1 => .scanTimeout s1
  | .ok c s1 =>
    if c = '(' then scAddToken s1 .LEFT_PAREN none
    else if c = ')' then scAddToken s1 .RIGHT_PAREN none
    else if c = '{' then scAddToken s1 .LEFT_BRACE none
    else if c = '}' then scAddToken s1 .RIGHT_BRACE none
    else if c = ':' then scAddToken s1 .COLON none
    else if c = ',' then scAddToken s1 .COMMA none
    else if c = '.' then scAddToken s1 .DOT none
    else if c = '-' then scAddToken s1 .MINUS none
    else if c = '+' then scAddToken s1 .PLUS none
    else if c = '?' then scAddToken s1 .QUESTION none
    else if c = ';' then scAddToken s1 .SEMICOLON none
    else if c = '*' then scAddToken s1 .STAR none
    else if c = '!' then
      let (m, s2) := scMatch s1 '='
      scAddToken s2 (if m then .BANG_EQUAL else .BANG) none
    else if c = '=' then
      let (m, s2) := scMatch s1 '='
      scAddToken s2 (if m then .EQUAL_EQUAL else .EQUAL) none
    else if c = '<' then
      let (m, s2) := scMatch s1 '='
      scAddToken s2 (if m then .LESS_EQUAL else .LESS) none
    else if c = '>' then
      let (m, s2) := scMatch s1 '='
      scAddToken s2 (if m then .GREATER_EQUAL else .GREATER) none
    else if c = '/' then
      let (m, s2) := scMatch s1 '/'
      if m then scLineComment fuel s2
      else
        let (m2, s3) := scMatch s2 '*'
        -- `raise NotImplementedError('Block comments not yet supported.')`
        if m2 then .crash .notImplementedError s3
        else scAddToken s3 .SLASH none
    else if c = ' ' || c = '\x0d' || c = '\t' then .ok () s1
    else if c = '\n' then .ok () { s1 with line := s1.line + 1 }
    else if c.isAlpha then scIdent fuel s1
    else if c.isDigit then scNumber fuel s1
    else if c = '"' then scString fuel s1
    else
      .ok () { s1 with errors := s1.errors ++
        [(s1.line, "Unexpected character, " ++ c.toString ++ ".")] }

/-- The loop of `Scanner.scan`: `while not at end: start := current;
scan one token`, then a final `EOF` token is added. -/
def scanLoop : Nat → ScanState → ScanRes Unit
  | 0, s => .scanTimeout s
  | fuel + 1, s =>
    if scIsAtEnd s then scAddToken s .EOF none
    else
      match scanToken fuel { s with start := s.current } with
      | .ok _ s1 => scanLoop fuel s1
      | .crash e s1 => .crash e s1
      | .scanTimeout s1 => .scanTimeout s1

/-- `Scanner(source).scan()`. -/
def scanSource (src : String) : ScanRes Unit :=
  scanLoop (src.length * 2 + 2)
    { source := src.toList, start := 0, current := 0, line := 1, errors := [] }

/-!  ## Parser (src/plox/parser.py)  -/

/-- Parser state: `_tokens`, `_current`, and the tokens and messages
reported through `Parser._error` / `lox.Lox.error_token`. -/
structure PState where
  tokens : List Token
  current : Nat
  errors : List (Token × String)
deriving Repr

/-- Parser outcome: a result, a raised `_ParseError` (the state, including
the error log, persists — the parser object is mutated in place), a Python
crash, or fuel exhaustion. -/
inductive PRes (α : Type) where
  | ok (a : α) (s : PState)
  | perr (s : PState)
  | pcrash (e : PyExc) (s : PState)
  | ptimeout (s : PState)
deriving Repr

/-- Sequencing for parser steps. -/
def pBind {α β : Type} (r : PRes α) (f : α → PState → PRes β) : PRes β :=
  match r with
  | .ok a s => f a s
  | .perr s => .perr s
  | .pcrash e s => .pcrash e s
  | .ptimeout s => .ptimeout s

/-- `Parser._peek`: `self._tokens[self._current]` — `IndexError` when out
of range (cannot happen on a token list ending in `EOF`). -/
def pPeek (s : PState) : PRes Token :=
  match s.tokens.get? s.current with
  | some t => .ok t s
  | none => .pcrash .indexError s

/-- `Parser._previous`: `self._tokens[self._current - 1]`.  With
`_current = 0` Python reads `tokens[-1]`, the last element (negative
indexing), and raises only on an empty list. -/
def pPrevious (s : PState) : PRes Token :=
  if s.current = 0 then
    match s.tokens.getLast? with
    | some t => .ok t s
    | none => .pcrash .indexError s
  else
    match s.tokens.get? (s.current - 1) with
    | some t => .ok t s
    | none => .pcrash .indexError s

/-- `Parser._is_at_end`: `self._peek().type == TokenType.EOF`. -/
def pIsAtEnd (s : PState) : PRes Bool :=
  pBind (pPeek s) fun t s1 => .ok (t.ttype == .EOF) s1

/-- `Parser._advance`. -/
def pAdvance (s : PState) : PRes Token :=
  pBind (pIsAtEnd s) fun b s1 =>
  pPrevious (if b then s1 else { s1 with current := s1.current + 1 })

/-- `Parser._check(token_type)`. -/
def pCheck (tt : TokenType) (s : PState) : PRes Bool :=
  pBind (pIsAtEnd s) fun b s1 =>
  if b then .ok false s1
  else pBind (pPeek s1) fun t s2 => .ok (t.ttype == tt) s2

/-- `Parser._match(*types)`. -/
def pMatch : List TokenType → PState → PRes Bool
  | [], s => .ok false s
  | tt :: rest, s =>
    pBind (pCheck tt s) fun b s1 =>
    if b then pBind (pAdvance s1) fun _ s2 => .ok true s2
    else pMatch rest s1

/-- `Parser._error(token, msg)`: report through the driver and construct a
`_ParseError` — the log happens whether or not the caller raises it. -/
def pLog (s : PState) (t : Token) (msg : String) : PState :=
  { s with errors := s.errors ++ [(t, msg)] }

/-- `Parser._consume(token_type, msg)`. -/
def pConsume (tt : TokenType) (msg : String) (s : PState) : PRes Token :=
  pBind (pCheck tt s) fun b s1 =>
  if b then pAdvance s1
  else pBind (pPeek s1) fun t s2 => .perr (pLog s2 t msg)

/-- The loop of `Parser._synchronize`. -/
def pSyncLoop : Nat → PState → PRes Unit
  | 0, s => .ptimeout s
  | fuel + 1, s =>
    pBind (pIsAtEnd s) fun b s1 =>
    if b then .ok () s1
    else
      pBind (pPrevious s1) fun prev s2 =>
      if prev.ttype == .SEMICOLON then .ok () s2
      else
        pBind (pPeek s2) fun t s3 =>
        if t.ttype == .CLASS || t.ttype == .FUN || t.ttype == .VAR ||
            t.ttype == .FOR || t.ttype == .IF || t.ttype == .WHILE ||
            t.ttype == .RETURN then .ok () s3
        else pBind (pAdvance s3) fun _ s4 => pSyncLoop fuel s4

/-- `Parser._synchronize`. -/
def pSynchronize (fuel : Nat) (s : PState) : PRes Unit :=
  pBind (pAdvance s) fun _ s1 => pSyncLoop fuel s1

mutual

/-- `Parser._declaration`: dispatch to class/fun/var/statement, catching
`_ParseError` by synchronizing and returning `None`. -/
def pDeclaration : Nat → PState → PRes (Option Stmt)
  | 0, s => .ptimeout s
  | fuel + 1, s =>
    let attempt : PRes Stmt :=
      pBind (pMatch [.CLASS] s) fun b1 s1 =>
      if b1 then pClassDeclaration fuel s1
      else
        pBind (pMatch [.FUN] s1) fun b2 s2 =>
        if b2 then pFunctionRule fuel "function" s2
        else
          pBind (pMatch [.VAR] s2) fun b3 s3 =>
          if b3 then pVariableDeclaration fuel s3
          else pStatement fuel s3
    match attempt with
    | .ok st s' => .ok (some st) s'
    | .perr s' => pBind (pSynchronize fuel s') fun _ s'' => .ok none s''
    | .pcrash e s' => .pcrash e s'
    | .ptimeout s' => .ptimeout s'

/-- `Parser._class_declaration`. -/
def pClassDeclaration : Nat → PState → PRes Stmt
  | 0, s => .ptimeout s
  | fuel + 1, s =>
    pBind (pConsume .IDENTIFIER "Expect class name." s) fun name s1 =>
    pBind (pMatch [.LESS] s1) fun hasSup s2 =>
    let supStep : PRes (Option Expr) :=
      if hasSup then
        pBind (pConsume .IDENTIFIER "Expect superclass name." s2) fun _ s3 =>
        pBind (pPrevious s3) fun prev s4 => .ok (some (.varE prev)) s4
      else .ok none s2
    pBind supStep fun superclass s5 =>
    pBind (pConsume .LEFT_BRACE "Expect '\x7b' before class body." s5)
      fun _ s6 =>
    pBind (pClassMethods fuel [] s6) fun methods s7 =>
    pBind (pConsume .RIGHT_BRACE "Expect '\x7d' after class body." s7)
      fun _ s8 =>
    .ok (.classStmt name superclass methods) s8

/-- The method loop of `Parser._class_declaration`. -/
def pClassMethods : Nat → List Stmt → PState → PRes (List Stmt)
  | 0, _, s => .ptimeout s
  | fuel + 1, acc, s =>
    pBind (pCheck .RIGHT_BRACE s) fun atBrace s1 =>
    pBind (pIsAtEnd s1) fun atEnd s2 =>
    if !atBrace && !atEnd then
      pBind (pFunctionRule fuel "method" s2) fun m s3 =>
      pClassMethods fuel (acc ++ [m]) s3
    else .ok acc s2

/-- `Parser._variable_declaration`. -/
def pVariableDeclaration : Nat → PState → PRes Stmt
  | 0, s => .ptimeout s
  | fuel + 1, s =>
    pBind (pConsume .IDENTIFIER "Expect variable name." s) fun name s1 =>
    pBind (pMatch [.EQUAL] s1) fun hasInit s2 =>
    let initStep : PRes (Option Expr) :=
      if hasInit then
        pBind (pExpression fuel s2) fun e s3 => .ok (some e) s3
      else .ok none s2
    pBind initStep fun initializer s4 =>
    pBind (pConsume .SEMICOLON "Expect ';' after variable declaration." s4)
      fun _ s5 =>
    .ok (.varStmt name initializer) s5

/-- `Parser._function(kind)` (src/plox/parser.py lines 65-77).  Note the
parameter loop: after the first parameter, `while self._match(COMMA)` only
performs the 255-limit check — it never consumes nor appends the next
parameter (compare `_finish_call`, which does). -/
def pFunctionRule : Nat → String → PState → PRes Stmt
  | 0, _, s => .ptimeout s
  | fuel + 1, kind, s =>
    pBind (pConsume .IDENTIFIER ("Expect " ++ kind ++ " name.") s)
      fun name s1 =>
    pBind (pConsume .LEFT_PAREN ("Expect '(' after " ++ kind ++ " name.") s1)
      fun _ s2 =>
    pBind (pCheck .RIGHT_PAREN s2) fun atParen s3 =>
    let paramStep : PRes (List Token) :=
      if !atParen then
        pBind (pConsume .IDENTIFIER "Expect parameter name." s3) fun p s4 =>
        pParamLoop fuel [p] s4
      else .ok [] s3
    pBind paramStep fun parameters s5 =>
    pBind (pConsume .RIGHT_PAREN "Expect ')' after parameters." s5)
      fun _ s6 =>
    pBind (pConsume .LEFT_BRACE ("Expect '\x7b' before " ++ kind ++ " body.")
      s6) fun _ s7 =>
    pBind (pBlockRule fuel s7) fun body s8 =>
    .ok (.function name parameters body) s8

/-- The parameter loop of `Parser._function`: `while self._match(COMMA):
if len(parameters) >= 255: self._error(...)` — and nothing else. -/
def pParamLoop : Nat → List Token → PState → PRes (List Token)
  | 0, _, s => .ptimeout s
  | fuel + 1, params, s =>
    pBind (pMatch [.COMMA] s) fun b s1 =>
    if b then
      if params.length ≥ 255 then
        pBind (pPeek s1) fun t s2 =>
        pParamLoop fuel params
          (pLog s2 t "Can't have more that 255 parameters.")
      else pParamLoop fuel params s1
    else .ok params s1

/-- `Parser._statement`. -/
def pStatement : Nat → PState → PRes Stmt
  | 0, s => .ptimeout s
  | fuel + 1, s =>
    pBind (pMatch [.BREAK] s) fun b1 s1 =>
    if b1 then pBreakStatement fuel s1
    else
      pBind (pMatch [.CONTINUE] s1) fun b2 s2 =>
      if b2 then pContinueStatement fuel s2
      else
        pBind (pMatch [.FOR] s2) fun b3 s3 =>
        if b3 then pForStatement fuel s3
        else
          pBind (pMatch [.IF] s3) fun b4 s4 =>
          if b4 then pIfStatement fuel s4
          else
            pBind (pMatch [.RETURN] s4) fun b5 s5 =>
            if b5 then pReturnStatement fuel s5
            else
              pBind (pMatch [.WHILE] s5) fun b6 s6 =>
              if b6 then pWhileStatement fuel s6
              else
                pBind (pMatch [.LEFT_BRACE] s6) fun b7 s7 =>
                if b7 then
                  pBind (pBlockRule fuel s7) fun stmts s8 =>
                    .ok (.block stmts) s8
                else pExpressionStatement fuel s7

/-- `Parser._break_statement` (its message says "continue value" in the
source). -/
def pBreakStatement : Nat → PState → PRes Stmt
  | 0, s => .ptimeout s
  | _ + 1, s =>
    pBind (pPrevious s) fun kw s1 =>
    pBind (pConsume .SEMICOLON "Expect ';' after continue value." s1)
      fun _ s2 =>
    .ok (.breakStmt kw) s2

/-- `Parser._continue_statement`. -/
def pContinueStatement : Nat → PState → PRes Stmt
  | 0, s => .ptimeout s
  | _ + 1, s =>
    pBind (pPrevious s) fun kw s1 =>
    pBind (pConsume .SEMICOLON "Expect ';' after continue value." s1)
      fun _ s2 =>
    .ok (.continueStmt kw) s2

/-- `Parser._expression_statement`. -/
def pExpressionStatement : Nat → PState → PRes Stmt
  | 0, s => .ptimeout s
  | fuel + 1, s =>
    pBind (pExpression fuel s) fun e s1 =>
    pBind (pConsume .SEMICOLON "Expect a ';' after expression." s1)
      fun _ s2 =>
    .ok (.expression e) s2

/-- `Parser._for_statement` (src/plox/parser.py lines 112-136): desugar to
a `While`; with an increment the loop body becomes the synthesized block
`[original body, Expression(increment)]`. -/
def pForStatement : Nat → PState → PRes Stmt
  | 0, s => .ptimeout s
  | fuel + 1, s =>
    pBind (pConsume .LEFT_PAREN "Expect '(' after 'for'." s) fun _ s1 =>
    pBind (pMatch [.SEMICOLON] s1) fun noInit s2 =>
    let initStep : PRes (Option Stmt) :=
      if noInit then .ok none s2
      else
        pBind (pMatch [.VAR] s2) fun isVar s3 =>
        if isVar then
          pBind (pVariableDeclaration fuel s3) fun st s4 => .ok (some st) s4
        else
          pBind (pExpressionStatement fuel s3) fun st s4 => .ok (some st) s4
    pBind initStep fun initializer s5 =>
    pBind (pCheck .SEMICOLON s5) fun noCond s6 =>
    let condStep : PRes Expr :=
      if noCond then .ok (.literal (.vbool true)) s6
      else pExpression fuel s6
    pBind condStep fun condition s7 =>
    pBind (pConsume .SEMICOLON "Expect ';' after loop condition." s7)
      fun _ s8 =>
    pBind (pCheck .RIGHT_PAREN s8) fun noIncr s9 =>
    let incrStep : PRes (Option Expr) :=
      if noIncr then .ok none s9
      else pBind (pExpression fuel s9) fun e s10 => .ok (some e) s10
    pBind incrStep fun increment s11 =>
    pBind (pConsume .RIGHT_PAREN "Expect ')' after for clauses." s11)
      fun _ s12 =>
    pBind (pStatement fuel s12) fun body s13 =>
    let body1 :=
      match increment with
      | some i => Stmt.block [body, .expression i]
      | none => body
    let body2 := Stmt.whileStmt condition body1
    let body3 :=
      match initializer with
      | some ini => Stmt.block [ini, body2]
      | none => body2
    .ok body3 s13

/-- `Parser._if_statement`. -/
def pIfStatement : Nat → PState → PRes Stmt
  | 0, s => .ptimeout s
  | fuel + 1, s =>
    pBind (pConsume .LEFT_PAREN "Expect '(' after 'if'." s) fun _ s1 =>
    pBind (pExpression fuel s1) fun condition s2 =>
    pBind (pConsume .RIGHT_PAREN "Expect ')' after if condition." s2)
      fun _ s3 =>
    pBind (pStatement fuel s3) fun thenBranch s4 =>
    pBind (pMatch [.ELSE] s4) fun hasElse s5 =>
    if hasElse then
      pBind (pStatement fuel s5) fun elseBranch s6 =>
      .ok (.ifStmt condition thenBranch (some elseBranch)) s6
    else .ok (.ifStmt condition thenBranch none) s5

/-- `Parser._return_statement`. -/
def pReturnStatement : Nat → PState → PRes Stmt
  | 0, s => .ptimeout s
  | fuel + 1, s =>
    pBind (pPrevious s) fun kw s1 =>
    pBind (pCheck .SEMICOLON s1) fun noValue s2 =>
    let valueStep : PRes (Option Expr) :=
      if noValue then .ok none s2
      else pBind (pExpression fuel s2) fun e s3 => .ok (some e) s3
    pBind valueStep fun value s4 =>
    pBind (pConsume .SEMICOLON "Expect ';' after return value." s4)
      fun _ s5 =>
    .ok (.returnStmt kw value) s5

/-- `Parser._while_statement`. -/
def pWhileStatement : Nat → PState → PRes Stmt
  | 0, s => .ptimeout s
  | fuel + 1, s =>
    pBind (pConsume .LEFT_PAREN "Expect '(' after 'while'." s) fun _ s1 =>
    pBind (pExpression fuel s1) fun condition s2 =>
    pBind (pConsume .RIGHT_PAREN "Expect ')' after condition." s2)
      fun _ s3 =>
    pBind (pStatement fuel s3) fun body s4 =>
    .ok (.whileStmt condition body) s4

/-- `Parser._block`: `statements.append(self._declaration())` — with no
`None` filter, so an error recovery inside a block appends Python `None`
(`Stmt.pyNone`). -/
def pBlockRule : Nat → PState → PRes (List Stmt)
  | 0, s => .ptimeout s
  | fuel + 1, s => pBlockLoop fuel [] s

/-- The statement loop of `Parser._block`. -/
def pBlockLoop : Nat → List Stmt → PState → PRes (List Stmt)
  | 0, _, s => .ptimeout s
  | fuel + 1, acc, s =>
    pBind (pCheck .RIGHT_BRACE s) fun atBrace s1 =>
    pBind (pIsAtEnd s1) fun atEnd s2 =>
    if !atBrace && !atEnd then
      pBind (pDeclaration fuel s2) fun d s3 =>
      pBlockLoop fuel (acc ++ [d.getD .pyNone]) s3
    else
      pBind (pConsume .RIGHT_BRACE "Expect '\x7d' after block." s2)
        fun _ s3 =>
      .ok acc s3

/-- `Parser._expression`. -/
def pExpression : Nat → PState → PRes Expr
  | 0, s => .ptimeout s
  | fuel + 1, s => pSequence fuel s

/-- `Parser._sequence`. -/
def pSequence : Nat → PState → PRes Expr
  | 0, s => .ptimeout s
  | fuel + 1, s =>
    pBind (pAssignment fuel s) fun e s1 => pSequenceLoop fuel e s1

def pSequenceLoop : Nat → Expr → PState → PRes Expr
  | 0, _, s => .ptimeout s
  | fuel + 1, e, s =>
    pBind (pMatch [.COMMA] s) fun b s1 =>
    if b then
      pBind (pPrevious s1) fun op s2 =>
      pBind (pAssignment fuel s2) fun right s3 =>
      pSequenceLoop fuel (.binary e op right) s3
    else .ok e s1

/-- `Parser._assignment`: on `=`, re-interpret the left side; an invalid
target reports "Invalid assignment target." without raising. -/
def pAssignment : Nat → PState → PRes Expr
  | 0, s => .ptimeout s
  | fuel + 1, s =>
    pBind (pTernary fuel s) fun e s1 =>
    pBind (pMatch [.EQUAL] s1) fun b s2 =>
    if b then
      pBind (pPrevious s2) fun equals s3 =>
      pBind (pAssignment fuel s3) fun value s4 =>
      match e with
      | .varE name => .ok (.assign name value) s4
      | .getE obj name => .ok (.setE obj name value) s4
      | _ => .ok e (pLog s4 equals "Invalid assignment target.")
    else .ok e s2

/-- `Parser._ternary`. -/
def pTernary : Nat → PState → PRes Expr
  | 0, s => .ptimeout s
  | fuel + 1, s =>
    pBind (pLogicalOr fuel s) fun e s1 =>
    pBind (pMatch [.QUESTION] s1) fun b s2 =>
    if b then
      pBind (pPrevious s2) fun op1 s3 =>
      pBind (pTernary fuel s3) fun trueExpr s4 =>
      pBind (pConsume .COLON "Expect ':' following '?'." s4) fun op2 s5 =>
      pBind (pTernary fuel s5) fun falseExpr s6 =>
      .ok (.ternary e op1 trueExpr op2 falseExpr) s6
    else .ok e s2

/-- `Parser._logical_or`. -/
def pLogicalOr : Nat → PState → PRes Expr
  | 0, s => .ptimeout s
  | fuel + 1, s =>
    pBind (pLogicalAnd fuel s) fun e s1 => pLogicalOrLoop fuel e s1

def pLogicalOrLoop : Nat → Expr → PState → PRes Expr
  | 0, _, s => .ptimeout s
  | fuel + 1, e, s =>
    pBind (pMatch [.OR] s) fun b s1 =>
    if b then
      pBind (pPrevious s1) fun op s2 =>
      pBind (pLogicalAnd fuel s2) fun right s3 =>
      pLogicalOrLoop fuel (.logical e op right) s3
    else .ok e s1

/-- `Parser._logical_and` (src/plox/parser.py lines 210-216): its loop
matches `TokenType.OR` — not `AND`. -/
def pLogicalAnd : Nat → PState → PRes Expr
  | 0, s => .ptimeout s
  | fuel + 1, s =>
    pBind (pEquality fuel s) fun e s1 => pLogicalAndLoop fuel e s1

def pLogicalAndLoop : Nat → Expr → PState → PRes Expr
  | 0, _, s => .ptimeout s
  | fuel + 1, e, s =>
    pBind (pMatch [.OR] s) fun b s1 =>
    if b then
      pBind (pPrevious s1) fun op s2 =>
      pBind (pEquality fuel s2) fun right s3 =>
      pLogicalAndLoop fuel (.logical e op right) s3
    else .ok e s1

/-- `Parser._equality`. -/
def pEquality : Nat → PState → PRes Expr
  | 0, s => .ptimeout s
  | fuel + 1, s =>
    pBind (pComparison fuel s) fun e s1 => pEqualityLoop fuel e s1

def pEqualityLoop : Nat → Expr → PState → PRes Expr
  | 0, _, s => .ptimeout s
  | fuel + 1, e, s =>
    pBind (pMatch [.BANG_EQUAL, .EQUAL_EQUAL] s) fun b s1 =>
    if b then
      pBind (pPrevious s1) fun op s2 =>
      pBind (pComparison fuel s2) fun right s3 =>
      pEqualityLoop fuel (.binary e op right) s3
    else .ok e s1

/-- `Parser._comparison`. -/
def pComparison : Nat → PState → PRes Expr
  | 0, s => .ptimeout s
  | fuel + 1, s =>
    pBind (pTerm fuel s) fun e s1 => pComparisonLoop fuel e s1

def pComparisonLoop : Nat → Expr → PState → PRes Expr
  | 0, _, s => .ptimeout s
  | fuel + 1, e, s =>
    pBind (pMatch [.GREATER, .GREATER_EQUAL, .LESS, .LESS_EQUAL] s)
      fun b s1 =>
    if b then
      pBind (pPrevious s1) fun op s2 =>
      pBind (pTerm fuel s2) fun right s3 =>
      pComparisonLoop fuel (.binary e op right) s3
    else .ok e s1

/-- `Parser._term`. -/
def pTerm : Nat → PState → PRes Expr
  | 0, s => .ptimeout s
  | fuel + 1, s =>
    pBind (pFactor fuel s) fun e s1 => pTermLoop fuel e s1

def pTermLoop : Nat → Expr → PState → PRes Expr
  | 0, _, s => .ptimeout s
  | fuel + 1, e, s =>
    pBind (pMatch [.MINUS, .PLUS] s) fun b s1 =>
    if b then
      pBind (pPrevious s1) fun op s2 =>
      pBind (pFactor fuel s2) fun right s3 =>
      pTermLoop fuel (.binary e op right) s3
    else .ok e s1

/-- `Parser._factor`. -/
def pFactor : Nat → PState → PRes Expr
  | 0, s => .ptimeout s
  | fuel + 1, s =>
    pBind (pUnary fuel s) fun e s1 => pFactorLoop fuel e s1

def pFactorLoop : Nat → Expr → PState → PRes Expr
  | 0, _, s => .ptimeout s
  | fuel + 1, e, s =>
    pBind (pMatch [.SLASH, .STAR] s) fun b s1 =>
    if b then
      pBind (pPrevious s1) fun op s2 =>
      pBind (pUnary fuel s2) fun right s3 =>
      pFactorLoop fuel (.binary e op right) s3
    else .ok e s1

/-- `Parser._unary`, including the leading-binary-operator diagnostics. -/
def pUnary : Nat → PState → PRes Expr
  | 0, s => .ptimeout s
  | fuel + 1, s =>
    pBind (pMatch [.BANG, .MINUS] s) fun b1 s1 =>
    if b1 then
      pBind (pPrevious s1) fun op s2 =>
      pBind (pUnary fuel s2) fun right s3 => .ok (.unary op right) s3
    else
      pBind (pMatch [.EQUAL] s1) fun b2 s2 =>
      if b2 then
        pBind (pPrevious s2) fun op s3 =>
        pBind (pAssignment fuel s3) fun _ s4 =>
        .perr (pLog s4 op "Nothing to assign to.")
      else
        pBind (pMatch [.BANG_EQUAL, .EQUAL_EQUAL] s2) fun b3 s3 =>
        if b3 then
          pBind (pPrevious s3) fun op s4 =>
          pBind (pComparison fuel s4) fun _ s5 =>
          .perr (pLog s5 op "Not a unary operator.")
        else
          pBind (pMatch [.GREATER, .GREATER_EQUAL, .LESS, .LESS_EQUAL] s3)
            fun b4 s4 =>
          if b4 then
            pBind (pPrevious s4) fun op s5 =>
            pBind (pTerm fuel s5) fun _ s6 =>
            .perr (pLog s6 op "Not a unary operator.")
          else
            pBind (pMatch [.PLUS] s4) fun b5 s5 =>
            if b5 then
              pBind (pPrevious s5) fun op s6 =>
              pBind (pFactor fuel s6) fun _ s7 =>
              .perr (pLog s7 op "Unary '+' expressions are not supported.")
            else
              pBind (pMatch [.SLASH, .STAR] s5) fun b6 s6 =>
              if b6 then
                pBind (pPrevious s6) fun op s7 =>
                pBind (pUnary fuel s7) fun _ s8 =>
                .perr (pLog s8 op "Not a unary operator.")
              else pCallRule fuel s6

/-- `Parser._call`. -/
def pCallRule : Nat → PState → PRes Expr
  | 0, s => .ptimeout s
  | fuel + 1, s =>
    pBind (pPrimary fuel s) fun e s1 => pCallLoop fuel e s1

def pCallLoop : Nat → Expr → PState → PRes Expr
  | 0, _, s => .ptimeout s
  | fuel + 1, e, s =>
    pBind (pMatch [.LEFT_PAREN] s) fun b1 s1 =>
    if b1 then
      pBind (pFinishCall fuel e s1) fun e2 s2 => pCallLoop fuel e2 s2
    else
      pBind (pMatch [.DOT] s1) fun b2 s2 =>
      if b2 then
        pBind (pConsume .IDENTIFIER "Expect property name after '.'." s2)
          fun name s3 =>
        pCallLoop fuel (.getE e name) s3
      else .ok e s2

/-- `Parser._finish_call`: unlike `_function`'s parameter loop, the
argument loop does append each further argument. -/
def pFinishCall : Nat → Expr → PState → PRes Expr
  | 0, _, s => .ptimeout s
  | fuel + 1, callee, s =>
    pBind (pCheck .RIGHT_PAREN s) fun atParen s1 =>
    let argStep : PRes (List Expr) :=
      if !atParen then
        pBind (pExpression fuel s1) fun a s2 => pArgLoop fuel [a] s2
      else .ok [] s1
    pBind argStep fun args s3 =>
    pBind (pConsume .RIGHT_PAREN "Expect ')' after arguments." s3)
      fun paren s4 =>
    .ok (.call callee paren args) s4

/-- The argument loop of `Parser._finish_call`. -/
def pArgLoop : Nat → List Expr → PState → PRes (List Expr)
  | 0, _, s => .ptimeout s
  | fuel + 1, args, s =>
    pBind (pMatch [.COMMA] s) fun b s1 =>
    if b then
      let logStep : PRes Unit :=
        if args.length ≥ 255 then
          pBind (pPeek s1) fun t s2 =>
            .ok () (pLog s2 t "Can't have more than 255 arguments.")
        else .ok () s1
      pBind logStep fun _ s3 =>
      pBind (pExpression fuel s3) fun a s4 =>
      pArgLoop fuel (args ++ [a]) s4
    else .ok args s1

/-- `Parser._primary`. -/
def pPrimary : Nat → PState → PRes Expr
  | 0, s => .ptimeout s
  | fuel + 1, s =>
    pBind (pMatch [.FALSE] s) fun b1 s1 =>
    if b1 then .ok (.literal (.vbool false)) s1
    else
      pBind (pMatch [.TRUE] s1) fun b2 s2 =>
      if b2 then .ok (.literal (.vbool true)) s2
      else
        pBind (pMatch [.NIL] s2) fun b3 s3 =>
        if b3 then .ok (.literal .vnone) s3
        else
          pBind (pMatch [.NUMBER, .STRING] s3) fun b4 s4 =>
          if b4 then
            pBind (pPrevious s4) fun prev s5 =>
            .ok (.literal
              (match prev.literal with
               | some (.num q) => .num q
               | some (.str t) => .str t
               | none => .vnone)) s5
          else
            pBind (pMatch [.SUPER] s4) fun b5 s5 =>
            if b5 then
              pBind (pPrevious s5) fun kw s6 =>
              pBind (pConsume .DOT "Expect a '.' after 'super'." s6)
                fun _ s7 =>
              pBind
                (pConsume .IDENTIFIER "Expect superclass method name." s7)
                fun method s8 =>
              .ok (.superE kw method) s8
            else
              pBind (pMatch [.THIS] s5) fun b6 s6 =>
              if b6 then
                pBind (pPrevious s6) fun kw s7 => .ok (.thisE kw) s7
              else
                pBind (pMatch [.IDENTIFIER] s6) fun b7 s7 =>
                if b7 then
                  pBind (pPrevious s7) fun name s8 => .ok (.varE name) s8
                else
                  pBind (pMatch [.LEFT_PAREN] s7) fun b8 s8 =>
                  if b8 then
                    pBind (pExpression fuel s8) fun e s9 =>
                    pBind
                      (pConsume .RIGHT_PAREN "Expect ')' after expression."
                        s9) fun _ s10 =>
                    .ok (.grouping e) s10
                  else
                    pBind (pPeek s8) fun t s9 =>
                    .perr (pLog s9 t "Expect expression.")

end

/-- The loop of `Parser.parse`: collect declarations until EOF, skipping
the `None` results of recovered errors. -/
def parseLoop : Nat → List Stmt → PState → PRes (List Stmt)
  | 0, _, s => .ptimeout s
  | fuel + 1, acc, s =>
    pBind (pIsAtEnd s) fun b s1 =>
    if b then .ok acc s1
    else
      pBind (pDeclaration fuel s1) fun d s2 =>
      parseLoop fuel
        (match d with
         | some st => acc ++ [st]
         | none => acc) s2

/-- `Parser(tokens).parse()`. -/
def parseTokens (fuel : Nat) (toks : List Token) : PRes (List Stmt) :=
  parseLoop fuel [] { tokens := toks, current := 0, errors := [] }

/-!  ## Resolver (src/plox/resolver.py)  -/

/-- `_FunctionType`. -/
inductive FunctionType where
  | NONE
  | FUNCTION
  | INITIALIZER
  | METHOD
deriving DecidableEq, Repr

/-- The error messages `Resolver.visit_return_stmt` (src/plox/resolver.py
lines 132-138) reports, in order, given the ambient `_current_function` and
the statement's optional value expression.  The source condition for the
first message is `self._current_function not in {FUNCTION, METHOD}` — which
holds for `INITIALIZER` as well as for `NONE`. -/
def visitReturnErrors (ft : FunctionType) (value : Option Expr) :
    List String :=
  (if ft ≠ .FUNCTION ∧ ft ≠ .METHOD
   then ["Can't return from top-level code."] else []) ++
  (match value with
   | some _ =>
     if ft = .INITIALIZER then ["Can't return a value from an initializer."]
     else []
   | none => [])

/-!  ## Environment.initialize, spec reading (for claim C6)  -/

/-- `Environment.initialize` as the single-frame method of
src/plox/environment.py lines 20-21: `self.values[name.lexeme] = value`,
unconditionally. -/
def frameInitialize (e : EnvD) (name : Token) (v : Value) : EnvD :=
  { e with values := dictSet e.values name.lexeme v }

/-- The claim's reading of `initialize`, stated for comparison with
`frameInitialize`: insert, but raise the runtime error
"Cannot reinitialize a variable" if the name already exists in this
frame. -/
def frameInitializeSpec (e : EnvD) (name : Token) (v : Value) :
    Except String EnvD :=
  if (e.values.lookup name.lexeme).isSome then
    .error "Cannot reinitialize a variable"
  else .ok { e with values := dictSet e.values name.lexeme v }

/-!  ## Concrete inputs used by the theorems  -/

/-- The state carried by an evaluation outcome. -/
def resState {α : Type} : IRes α → IState
  | .ok _ s => s
  | .exc _ s => s
  | .timeout s => s

/-- A token without a literal payload. -/
def mkTok (id : Nat) (tt : TokenType) (lex : String) : Token :=
  ⟨id, tt, lex, none, 1⟩

/-- A NUMBER token. -/
def mkNumTok (id : Nat) (lex : String) (q : Rat) : Token :=
  ⟨id, .NUMBER, lex, some (.num q), 1⟩

/-- Token stream of `fun f(a, b) {}`. -/
def c3TwoParamToks : List Token :=
  [mkTok 0 .FUN "fun", mkTok 1 .IDENTIFIER "f", mkTok 2 .LEFT_PAREN "(",
   mkTok 3 .IDENTIFIER "a", mkTok 4 .COMMA ",", mkTok 5 .IDENTIFIER "b",
   mkTok 6 .RIGHT_PAREN ")", mkTok 7 .LEFT_BRACE "\x7b",
   mkTok 8 .RIGHT_BRACE "\x7d", mkTok 9 .EOF ""]

/-- Token stream of `fun f(a) {}`. -/
def c3OneParamToks : List Token :=
  [mkTok 0 .FUN "fun", mkTok 1 .IDENTIFIER "f", mkTok 2 .LEFT_PAREN "(",
   mkTok 3 .IDENTIFIER "a", mkTok 4 .RIGHT_PAREN ")",
   mkTok 5 .LEFT_BRACE "\x7b", mkTok 6 .RIGHT_BRACE "\x7d", mkTok 7 .EOF ""]

/-- Token stream of `a and b;`. -/
def c4Toks : List Token :=
  [mkTok 0 .IDENTIFIER "a", mkTok 1 .AND "and", mkTok 2 .IDENTIFIER "b",
   mkTok 3 .SEMICOLON ";", mkTok 4 .EOF ""]

/-- Token stream of `var i = 0; for (; i < 3; i = i + 1) continue;`. -/
def c10Toks : List Token :=
  [mkTok 0 .VAR "var", mkTok 1 .IDENTIFIER "i", mkTok 2 .EQUAL "=",
   mkNumTok 3 "0" 0, mkTok 4 .SEMICOLON ";",
   mkTok 5 .FOR "for", mkTok 6 .LEFT_PAREN "(", mkTok 7 .SEMICOLON ";",
   mkTok 8 .IDENTIFIER "i", mkTok 9 .LESS "<", mkNumTok 10 "3" 3,
   mkTok 11 .SEMICOLON ";",
   mkTok 12 .IDENTIFIER "i", mkTok 13 .EQUAL "=", mkTok 14 .IDENTIFIER "i",
   mkTok 15 .PLUS "+", mkNumTok 16 "1" 1, mkTok 17 .RIGHT_PAREN ")",
   mkTok 18 .CONTINUE "continue", mkTok 19 .SEMICOLON ";", mkTok 20 .EOF ""]

/-- The while condition `i < 3` of the desugared `for`. -/
def c10Cond : Expr :=
  .binary (.varE (mkTok 8 .IDENTIFIER "i")) (mkTok 9 .LESS "<")
    (.literal (.num 3))

/-- The increment expression `i = i + 1` of the `for`. -/
def c10Incr : Expr :=
  .assign (mkTok 12 .IDENTIFIER "i")
    (.binary (.varE (mkTok 14 .IDENTIFIER "i")) (mkTok 15 .PLUS "+")
      (.literal (.num 1)))

/-- The desugared loop body: the synthesized block
`[original body, Expression(increment)]`. -/
def c10Body : Stmt :=
  .block [.continueStmt (mkTok 18 .CONTINUE "continue"), .expression c10Incr]

/-- The desugared `While`. -/
def c10While : Stmt := .whileStmt c10Cond c10Body

/-- The statements `Parser.parse` produces for `c10Toks`. -/
def c10Prog : List Stmt :=
  [.varStmt (mkTok 1 .IDENTIFIER "i") (some (.literal (.num 0))), c10While]

/-- The globals frame after `var i = 0;` has executed. -/
def c10Globals : List (String × Value) :=
  [("clock", .vnative .Clock), ("print", .vnative .Print),
   ("println", .vnative .PrintLn), ("i", .vnum 0)]

/-- The states the `for` loop's execution moves through: after `k`
iterations the arena holds `k` discarded block frames, the current frame is
globals, and `i` is still `0`. -/
def c10State (c : Int) (k : Nat) : IState :=
  { envs := ⟨none, c10Globals⟩ :: List.replicate k ⟨some 0, []⟩,
    insts := [], globalsRef := 0, envRef := 0, locals := [], output := [],
    clockVal := c }

/-- `class A {}` as a statement. -/
def c1ClassA : Stmt := .classStmt (mkTok 0 .IDENTIFIER "A") none []

/-- A class `A` with one method `m`, as a runtime value. -/
def c1ClassAData : ClassD :=
  ⟨"A", [("m", ⟨.function (mkTok 1 .IDENTIFIER "m") [] [], 0, false⟩)]⟩

/-- `class B < A {}` as a statement. -/
def c1ClassB : Stmt :=
  .classStmt (mkTok 2 .IDENTIFIER "B") (some (.varE (mkTok 3 .IDENTIFIER "A")))
    []

/-- A state whose globals already bind `A` to the class value (so the
superclass expression of `c1ClassB` evaluates to a `LoxClass`). -/
def c1StateWithA : IState :=
  { envs := [⟨none,
      [("clock", .vnative .Clock), ("print", .vnative .Print),
       ("println", .vnative .PrintLn), ("A", .vclass c1ClassAData)]⟩],
    insts := [], globalsRef := 0, envRef := 0, locals := [], output := [],
    clockVal := 0 }

/-- A frame already holding `x`. -/
def c6Env : EnvD := ⟨none, [("x", .vnum 1)]⟩

/-- The token `x`. -/
def c6Tok : Token := mkTok 0 .IDENTIFIER "x"

/-- A state holding two distinct instance objects of the same method-less
class, both with no fields. -/
def c7State : IState :=
  { envs := [], insts := [⟨⟨"A", []⟩, []⟩, ⟨⟨"A", []⟩, []⟩],
    globalsRef := 0, envRef := 0, locals := [], output := [], clockVal := 0 }

/-- A state holding two instances of the same class whose fields differ. -/
def c7StateDiff : IState :=
  { envs := [],
    insts := [⟨⟨"A", []⟩, [("f", .vnum 1)]⟩, ⟨⟨"A", []⟩, [("f", .vnum 2)]⟩],
    globalsRef := 0, envRef := 0, locals := [], output := [], clockVal := 0 }

/-- Negate the boolean payload of an evaluation result, as
`visit_binary_expr` does between its `EQUAL_EQUAL` and `BANG_EQUAL`
branches. -/
def negBoolRes : IRes Value → IRes Value
  | .ok (.vbool b) s => .ok (.vbool (!b)) s
  | r => r

/-- An `==` token and a `!=` token. -/
def c7EqTok : Token := mkTok 90 .EQUAL_EQUAL "=="

def c7NeqTok : Token := mkTok 91 .BANG_EQUAL "!="

/-!  ## Theorems  -/

/-- Updating a key and then looking it up yields the new value. -/
theorem lookup_dictSet_self {α : Type} (l : List (String × α)) (k : String)
    (v : α) : (dictSet l k v).lookup k = some v := by
  induction l with
  | nil => simp [dictSet, List.lookup]
  | cons hd tl ih =>
    obtain ⟨k', v'⟩ := hd
    by_cases h : k' = k
    · subst h
      simp [dictSet, List.lookup]
    · have hne : (k == k') = false := beq_eq_false_iff_ne.mpr (Ne.symm h)
      simp [dictSet, h, List.lookup, hne, ih]

/-- Updating a key leaves the lookup of every other key unchanged. -/
theorem lookup_dictSet_ne {α : Type} (l : List (String × α)) (k k' : String)
    (v : α) (h : k' ≠ k) : (dictSet l k v).lookup k' = l.lookup k' := by
  induction l with
  | nil =>
    have hne : (k' == k) = false := beq_eq_false_iff_ne.mpr h
    simp [dictSet, List.lookup, hne]
  | cons hd tl ih =>
    obtain ⟨k0, v0⟩ := hd
    by_cases h0 : k0 = k
    · subst h0
      have hne : (k' == k0) = false := beq_eq_false_iff_ne.mpr h
      simp [dictSet, List.lookup, hne]
    · simp only [dictSet, if_neg h0, List.lookup]
      cases hk : k' == k0 <;> simp [hk, ih]

/-- C1: executing a Class statement cannot produce a LoxClass storing its
superclass: `LoxClass` (src/plox/classes.py) is a two-field dataclass
`(name, methods)` with no superclass field, `visit_class_stmt` passes it
three arguments — a `TypeError` for every class declaration, with or
without a superclass — and `find_method` consults only the class's own
method map, so a name absent from it is never found on any superclass;
accordingly `super.m` can never be evaluated. -/
theorem c1_superclass_not_stored :
    execStmt 20 c1ClassA (initState 0) =
      .exc (.pyErr .typeError)
        { envs := [⟨none,
            [("clock", .vnative .Clock), ("print", .vnative .Print),
             ("println", .vnative .PrintLn), ("A", .vnil)]⟩],
          insts := [], globalsRef := 0, envRef := 0, locals := [],
          output := [], clockVal := 0 } ∧
    execStmt 20 c1ClassB c1StateWithA =
      .exc (.pyErr .typeError)
        { envs := [⟨none,
            [("clock", .vnative .Clock), ("print", .vnative .Print),
             ("println", .vnative .PrintLn), ("A", .vclass c1ClassAData),
             ("B", .vnil)]⟩,
            ⟨some 0, [("super", .vclass c1ClassAData)]⟩],
          insts := [], globalsRef := 0, envRef := 1, locals := [],
          output := [], clockVal := 0 } ∧
    findMethod ⟨"B", []⟩ "m" = none ∧
    findMethod c1ClassAData "m" =
      some ⟨.function (mkTok 1 .IDENTIFIER "m") [] [], 0, false⟩ := by
  exact ⟨by rfl, by rfl, by rfl, by rfl⟩

/-- C2: the scanner's keyword table does not match the claimed seventeen
reserved words: it has no entry for `break` or `continue` (so they scan as
IDENTIFIER), it does map `print` (to `TokenType.PRINT`), and `PRINT` is not
a member of the `TokenType` enum the scanner imports, so the table itself
fails to evaluate at import time. -/
theorem c2_keyword_table_wrong :
    scannerKeywords.lookup "break" = none ∧
    scannerKeywords.lookup "continue" = none ∧
    scannerKeywords.lookup "print" = some TokenType.PRINT ∧
    inTokensPyEnum TokenType.PRINT = false ∧
    keywordTableResolves = false ∧
    idTokenType "break" = .IDENTIFIER ∧
    idTokenType "continue" = .IDENTIFIER ∧
    idTokenType "print" = .PRINT ∧
    idTokenType "and" = .AND ∧
    idTokenType "while" = .WHILE ∧
    idTokenType "foo" = .IDENTIFIER := by
  refine ⟨rfl, rfl, rfl, rfl, rfl, rfl, rfl, rfl, rfl, rfl, rfl⟩

/-- C3: a function declaration with two parameters is rejected — the
parameter loop of `Parser._function` matches the comma but never consumes
nor appends the next parameter, so `_consume(RIGHT_PAREN, ...)` fails at
`b`, the declaration is dropped by synchronization, and parsing yields no
statement; with a single parameter the declaration parses as claimed. -/
theorem c3_two_parameters_rejected :
    parseTokens 40 c3TwoParamToks =
      .ok []
        { tokens := c3TwoParamToks, current := 9,
          errors :=
            [(mkTok 5 .IDENTIFIER "b", "Expect ')' after parameters.")] } ∧
    parseTokens 40 c3OneParamToks =
      .ok [.function (mkTok 1 .IDENTIFIER "f") [mkTok 3 .IDENTIFIER "a"] []]
        { tokens := c3OneParamToks, current := 7, errors := [] } := by
  exact ⟨by rfl, by rfl⟩

/-- C4: `Parser._logical_and` matches `OR`, not the `and` keyword: on the
tokens of `a and b;` it returns just the variable `a` without consuming the
`and` token (current stays 1), and the whole parse drops the statement with
"Expect a ';' after expression." reported at `and` — no `Logical`
expression with an `and` operator is ever produced. -/
theorem c4_logical_and_never_matches_and :
    pLogicalAnd 40 { tokens := c4Toks, current := 0, errors := [] } =
      .ok (.varE (mkTok 0 .IDENTIFIER "a"))
        { tokens := c4Toks, current := 1, errors := [] } ∧
    parseTokens 40 c4Toks =
      .ok []
        { tokens := c4Toks, current := 4,
          errors :=
            [(mkTok 1 .AND "and", "Expect a ';' after expression.")] } := by
  exact ⟨by rfl, by rfl⟩

/-- C5: `Resolver.visit_return_stmt` reports "Can't return from top-level
code" whenever `current_function ∉ {FUNCTION, METHOD}` — in particular for
a value-less `return;` inside an initializer, where the claim says no error
is reported, and in addition to the initializer-value error for
`return expr;` there; the claim's "iff current_function = None" is false. -/
theorem c5_return_error_condition :
    visitReturnErrors .INITIALIZER none =
      ["Can't return from top-level code."] ∧
    visitReturnErrors .INITIALIZER (some (.literal (.num 1))) =
      ["Can't return from top-level code.",
       "Can't return a value from an initializer."] ∧
    visitReturnErrors .NONE none = ["Can't return from top-level code."] ∧
    visitReturnErrors .NONE (some (.literal (.num 1))) =
      ["Can't return from top-level code."] ∧
    visitReturnErrors .FUNCTION none = [] ∧
    visitReturnErrors .FUNCTION (some (.literal (.num 1))) = [] ∧
    visitReturnErrors .METHOD (some (.literal (.num 1))) = [] :=
  ⟨rfl, rfl, rfl, rfl, rfl, rfl, rfl⟩

/-- C6 counterexample: with `x` already present in the frame,
`Environment.initialize` does not raise — it overwrites the binding and
returns — while the claim requires the runtime error
"Cannot reinitialize a variable" exactly then. -/
theorem c6_initialize_does_not_raise :
    frameInitializeSpec c6Env c6Tok (.vnum 2) =
      .error "Cannot reinitialize a variable" ∧
    frameInitialize c6Env c6Tok (.vnum 2) = ⟨none, [("x", .vnum 2)]⟩ :=
  ⟨rfl, rfl⟩

/-- C6 amended: `Environment.initialize` never raises; it inserts the
binding into the current frame (overwriting any existing binding for the
name), leaves every other binding of the frame unchanged, and leaves the
enclosing link unchanged. -/
theorem c6_initialize_overwrites (e : EnvD) (name : Token) (v : Value) :
    (frameInitialize e name v).enclosing = e.enclosing ∧
    (frameInitialize e name v).values.lookup name.lexeme = some v ∧
    ∀ k, k ≠ name.lexeme →
      (frameInitialize e name v).values.lookup k = e.values.lookup k := by
  refine ⟨rfl, lookup_dictSet_self _ _ _, fun k hk => ?_⟩
  exact lookup_dictSet_ne _ _ _ _ hk

/-- Witness for `c6_initialize_overwrites` at a concrete frame, name and
unrelated key. -/
theorem c6_initialize_overwrites_witness :
    ("y" ≠ "x") ∧
    (frameInitialize c6Env c6Tok (.vnum 2)).values.lookup "y" =
      c6Env.values.lookup "y" :=
  ⟨by decide,
   (c6_initialize_overwrites c6Env c6Tok (.vnum 2)).2.2 "y" (by decide)⟩

/-- C7 counterexample: Python `==` (what `_is_equal` evaluates) makes
`true == 1` true, not false; and two distinct instance objects of the same
class with equal fields compare equal, so Callable/Instance equality is not
"the same object" — while instances with differing fields compare
unequal (structural, not identity, comparison). -/
theorem c7_equality_counterexample :
    isEqual c7State (.vbool true) (.vnum 1) = some true ∧
    isEqual c7State (.vinstance 0) (.vinstance 1) = some true ∧
    Value.vinstance 0 ≠ Value.vinstance 1 ∧
    isEqual c7StateDiff (.vinstance 0) (.vinstance 1) = some false := by
  refine ⟨by rfl, by rfl, ?_, by rfl⟩
  intro h
  exact absurd (by injection h) (by decide)

/-- C8: scanning does not always terminate with an EOF token: an input
ending in an unterminated string reports the lex error and then crashes
with `IndexError` in `_advance`; the two-character sequence `/*` raises
`NotImplementedError`; and even a plain identifier crashes with `TypeError`
because `_add_token` calls the five-field `Token` dataclass with four
arguments — no token list is ever produced. -/
theorem c8_scan_crashes :
    scanSource "\"ab" = .crash .indexError
      { source := ['\"', 'a', 'b'], start := 0, current := 4, line := 1,
        errors := [(1, "Unterminated string.")] } ∧
    scanSource "/*" = .crash .notImplementedError
      { source := ['/', '*'], start := 0, current := 2, line := 1,
        errors := [] } ∧
    scanSource "a" = .crash .typeError
      { source := ['a'], start := 0, current := 1, line := 1,
        errors := [] } := by
  exact ⟨by rfl, by rfl, by rfl⟩

/-- C9: `execute_block` restores the interpreter's current-environment
pointer on every exit path — normal completion and every escaping signal
(`Return`, `Break`, `Continue`, a Lox runtime error, a Python error), and
vacuously on fuel exhaustion — and so does `visit_block_stmt`, which runs
`execute_block` on a fresh child frame. -/
theorem c9_block_restores_environment :
    (∀ (fuel : Nat) (stmts : List Stmt) (ref : Nat) (s : IState),
        (resState (execBlock fuel stmts ref s)).envRef = s.envRef) ∧
    (∀ (fuel : Nat) (stmts : List Stmt) (s : IState),
        (resState (execStmt fuel (.block stmts) s)).envRef = s.envRef) := by
  have h1 : ∀ (fuel : Nat) (stmts : List Stmt) (ref : Nat) (s : IState),
      (resState (execBlock fuel stmts ref s)).envRef = s.envRef := by
    intro fuel stmts ref s
    match fuel with
    | 0 => rfl
    | fuel + 1 =>
      simp only [execBlock]
      cases execSeq fuel stmts { s with envRef := ref } <;> simp [resState]
  refine ⟨h1, fun fuel stmts s => ?_⟩
  match fuel with
  | 0 => rfl
  | fuel + 1 => exact h1 fuel stmts s.envs.length { s with envs := s.envs ++ [⟨some s.envRef, []⟩] }

/-- Witness for `c9_block_restores_environment` (no hypotheses beyond the
universally quantified data; instantiated at a concrete block). -/
theorem c9_block_restores_witness :
    (resState (execBlock 5 [Stmt.breakStmt (mkTok 0 .BREAK "break")] 0
      (initState 0))).envRef = (initState 0).envRef :=
  c9_block_restores_environment.1 5 [Stmt.breakStmt (mkTok 0 .BREAK "break")]
    0 (initState 0)

/-- C7 amended: equality between runtime values is Python `==`: value-wise
on `nil`, numbers and strings; booleans compare with numbers by numeric
value (`true == 1` is true, `false == 0` is true); instances compare by
structural equality of class and fields (not by object identity);
`a != b` evaluates to the negation of `a == b`; and once the operands are
evaluated, `==`/`!=` never raise a Lox runtime error. -/
theorem c7_equality_amended :
    (∀ s q1 q2, isEqual s (.vnum q1) (.vnum q2) = some (q1 == q2)) ∧
    (∀ s t1 t2, isEqual s (.vstr t1) (.vstr t2) = some (t1 == t2)) ∧
    (∀ s, isEqual s .vnil .vnil = some true) ∧
    (∀ s b1 b2, isEqual s (.vbool b1) (.vbool b2) =
      some ((if b1 then (1 : Rat) else 0) == (if b2 then (1 : Rat) else 0))) ∧
    (∀ s b q, isEqual s (.vbool b) (.vnum q) =
      some ((if b then (1 : Rat) else 0) == q)) ∧
    (∀ s q, isEqual s .vnil (.vnum q) = some false) ∧
    (∀ s b, isEqual s .vnil (.vbool b) = some false) ∧
    (∀ s t, isEqual s .vnil (.vstr t) = some false) ∧
    (∀ s t q, isEqual s (.vstr t) (.vnum q) = some false) ∧
    (∀ s t b, isEqual s (.vstr t) (.vbool b) = some false) ∧
    (∀ s r1 r2 i1 i2, s.insts.get? r1 = some i1 → s.insts.get? r2 = some i2 →
      i1.fields = [] → i2.fields = [] →
      isEqual s (.vinstance r1) (.vinstance r2) =
        some (classBeq i1.klass i2.klass)) ∧
    (∀ f l op r s, op.ttype = .BANG_EQUAL → ∀ opEq, opEq.ttype = .EQUAL_EQUAL →
      evalExpr (f + 1) (.binary l op r) s =
        negBoolRes (evalExpr (f + 1) (.binary l opEq r) s)) ∧
    (∀ f l op r s v1 s1 v2 s2 t m s3,
      (op.ttype = .EQUAL_EQUAL ∨ op.ttype = .BANG_EQUAL) →
      evalExpr f l s = .ok v1 s1 → evalExpr f r s1 = .ok v2 s2 →
      evalExpr (f + 1) (.binary l op r) s ≠ .exc (.rte t m) s3) := by
  refine ⟨fun s q1 q2 => by rfl, fun s t1 t2 => by rfl, fun s => by rfl,
    fun s b1 b2 => by cases b1 <;> cases b2 <;> rfl,
    fun s b q => by cases b <;> rfl,
    fun s q => by rfl, fun s b => by rfl, fun s t => by rfl,
    fun s t q => by rfl, fun s t b => by rfl, ?_, ?_, ?_⟩
  · intro s r1 r2 i1 i2 h1 h2 hf1 hf2
    have hpos : 0 < s.insts.length := by
      rcases List.get?_eq_some.mp h1 with ⟨hlt, _⟩
      omega
    obtain ⟨m, hm⟩ : ∃ m,
        s.insts.length + s.insts.foldl (fun a i => a + i.fields.length) 0 =
          m + 1 :=
      ⟨s.insts.length + s.insts.foldl (fun a i => a + i.fields.length) 0 - 1,
        by omega⟩
    unfold isEqual
    rw [hm]
    simp only [pyEq, h1, h2, hf1, hf2]
    cases hk : classBeq i1.klass i2.klass <;> simp [pyFieldsEq]
  · intro f l op r s hop opEq hopEq
    simp only [evalExpr]
    cases hL : evalExpr f l s with
    | timeout s1 => simp [bindR, negBoolRes, hL]
    | exc e s1 => simp [bindR, negBoolRes, hL]
    | ok v1 s1 =>
      cases hR : evalExpr f r s1 with
      | timeout s2 => simp [bindR, negBoolRes, hL, hR]
      | exc e s2 => simp [bindR, negBoolRes, hL, hR]
      | ok v2 s2 =>
        simp only [bindR, hL, hR, hop, hopEq]
        cases hE : isEqual s2 v1 v2 <;> simp [negBoolRes, hE]
  · intro f l op r s v1 s1 v2 s2 t m s3 hop h1 h2
    simp only [evalExpr, h1, h2, bindR]
    rcases hop with h | h <;> rw [h] <;>
      cases hE : isEqual s2 v1 v2 <;> simp [hE]

/-- Witness for `c7_equality_amended`: the hypothesis-bearing conjuncts
applied at concrete inputs. -/
theorem c7_equality_amended_witness :
    (isEqual c7State (.vinstance 0) (.vinstance 1) =
      some (classBeq (⟨"A", []⟩ : ClassD) (⟨"A", []⟩ : ClassD))) ∧
    (evalExpr 2 (.binary (.literal (.vbool true)) c7NeqTok
        (.literal (.num 1))) c7State =
      negBoolRes (evalExpr 2 (.binary (.literal (.vbool true)) c7EqTok
        (.literal (.num 1))) c7State)) ∧
    (evalExpr 2 (.binary (.literal (.vbool true)) c7EqTok
        (.literal (.num 1))) c7State ≠
      .exc (.rte c7EqTok "Operands must be numbers.") c7State) := by
  refine ⟨?_, ?_, ?_⟩
  · exact (c7_equality_amended).2.2.2.2.2.2.2.2.2.2.1 c7State 0 1
      ⟨⟨"A", []⟩, []⟩ ⟨⟨"A", []⟩, []⟩ (by rfl) (by rfl) rfl rfl
  · exact (c7_equality_amended).2.2.2.2.2.2.2.2.2.2.2.1 1
      (.literal (.vbool true)) c7NeqTok (.literal (.num 1)) c7State rfl
      c7EqTok rfl
  · exact (c7_equality_amended).2.2.2.2.2.2.2.2.2.2.2.2 1
      (.literal (.vbool true)) c7EqTok (.literal (.num 1)) c7State
      (.vbool true) c7State (.vnum 1) c7State c7EqTok
      "Operands must be numbers." c7State (Or.inl rfl) (by rfl) (by rfl)

/-- Allocating a fresh block frame from the `k`-th loop state gives the
`(k+1)`-th loop state. -/
theorem c10_alloc_state (c : Int) (k : Nat) :
    ({ c10State c k with
        envs := (c10State c k).envs ++ [⟨some (c10State c k).envRef, []⟩] } :
      IState) = c10State c (k + 1) := by
  simp [c10State, List.replicate_succ']

/-- Evaluating the loop condition `i < 3` in a loop state either runs out
of fuel or yields `true` and leaves the state unchanged: `i` is `0` in
globals and is never incremented. -/
theorem c10_cond_eval (c : Int) (k : Nat) : ∀ f : Nat,
    evalExpr f c10Cond (c10State c k) = .timeout (c10State c k) ∨
    evalExpr f c10Cond (c10State c k) = .ok (.vbool true) (c10State c k)
  | 0 => Or.inl rfl
  | 1 => Or.inl (by rfl)
  | f + 2 => Or.inr (by rfl)

/-- Executing the desugared loop body (the synthesized block
`[continue, Expression(i = i + 1)]`) either runs out of fuel or escapes
with the `Continue` signal before the increment expression is evaluated:
the only state change is the discarded block frame, and `i` stays `0`. -/
theorem c10_body_exec (c : Int) (k : Nat) : ∀ f : Nat,
    execStmt f c10Body (c10State c k) = .timeout (c10State c k) ∨
    execStmt f c10Body (c10State c k) = .timeout (c10State c (k + 1)) ∨
    execStmt f c10Body (c10State c k) = .exc .cntSig (c10State c (k + 1))
  | 0 => Or.inl rfl
  | 1 => Or.inr (Or.inl (by rw [← c10_alloc_state c k]; rfl))
  | 2 => Or.inr (Or.inl (by rw [← c10_alloc_state c k]; rfl))
  | 3 => Or.inr (Or.inl (by rw [← c10_alloc_state c k]; rfl))
  | f + 4 => Or.inr (Or.inr (by rw [← c10_alloc_state c k]; rfl))

/-- The `while` dispatcher catches the `Continue` and re-tests the
condition, which is still `true`: for every fuel the loop is still
running, in some loop state. -/
theorem c10_while_diverges (c : Int) : ∀ f k : Nat, ∃ k2,
    whileLoop f c10Cond c10Body (c10State c k) = .timeout (c10State c k2) := by
  intro f
  induction f with
  | zero => exact fun k => ⟨k, rfl⟩
  | succ f ih =>
    intro k
    rcases c10_cond_eval c k f with h | h
    · exact ⟨k, by simp only [whileLoop, h, bindR]⟩
    · rcases c10_body_exec c k f with hb | hb | hb
      · exact ⟨k, by simp only [whileLoop, h, bindR, isTruthy, if_true, hb]⟩
      · exact ⟨k + 1,
          by simp only [whileLoop, h, bindR, isTruthy, if_true, hb]⟩
      · obtain ⟨k2, h2⟩ := ih (k + 1)
        exact ⟨k2,
          by simp only [whileLoop, h, bindR, isTruthy, if_true, hb, h2]⟩

/-- The concrete parse of the `for` statement inside `c10Toks`. -/
theorem c10_for_parse :
    pForStatement (35 + 1) { tokens := c10Toks, current := 6, errors := [] } =
      .ok c10While { tokens := c10Toks, current := 20, errors := [] } := by
  have c1 : pConsume .LEFT_PAREN "Expect '(' after 'for'."
      { tokens := c10Toks, current := 6, errors := [] } =
      .ok (mkTok 6 .LEFT_PAREN "(")
        { tokens := c10Toks, current := 7, errors := [] } := by rfl
  have c2 : pMatch [.SEMICOLON] { tokens := c10Toks, current := 7, errors := [] } =
      .ok true { tokens := c10Toks, current := 8, errors := [] } := by rfl
  have c3 : pCheck .SEMICOLON { tokens := c10Toks, current := 8, errors := [] } =
      .ok false { tokens := c10Toks, current := 8, errors := [] } := by rfl
  have c4 : pExpression 35 { tokens := c10Toks, current := 8, errors := [] } =
      .ok c10Cond { tokens := c10Toks, current := 11, errors := [] } := by rfl
  have c5 : pConsume .SEMICOLON "Expect ';' after loop condition."
      { tokens := c10Toks, current := 11, errors := [] } =
      .ok (mkTok 11 .SEMICOLON ";")
        { tokens := c10Toks, current := 12, errors := [] } := by rfl
  have c6 : pCheck .RIGHT_PAREN { tokens := c10Toks, current := 12, errors := [] } =
      .ok false { tokens := c10Toks, current := 12, errors := [] } := by rfl
  have c7 : pExpression 35 { tokens := c10Toks, current := 12, errors := [] } =
      .ok c10Incr { tokens := c10Toks, current := 17, errors := [] } := by rfl
  have c8 : pConsume .RIGHT_PAREN "Expect ')' after for clauses."
      { tokens := c10Toks, current := 17, errors := [] } =
      .ok (mkTok 17 .RIGHT_PAREN ")")
        { tokens := c10Toks, current := 18, errors := [] } := by rfl
  have c9 : pStatement 35 { tokens := c10Toks, current := 18, errors := [] } =
      .ok (.continueStmt (mkTok 18 .CONTINUE "continue"))
        { tokens := c10Toks, current := 20, errors := [] } := by rfl
  simp [pForStatement, pBind, c1, c2, c3, c4, c5, c6, c7, c8, c9,
    c10While, c10Body]

/-- Unfolding lemma for one step of the loop of `Parser.parse`. -/
theorem parseLoop_succ (fuel : Nat) (acc : List Stmt) (s : PState) :
    parseLoop (fuel + 1) acc s =
      pBind (pIsAtEnd s) (fun b s1 =>
        if b then .ok acc s1
        else
          pBind (pDeclaration fuel s1) (fun d s2 =>
            parseLoop fuel
              (match d with
               | some st => acc ++ [st]
               | none => acc) s2)) := rfl

/-- `Parser.parse` on the tokens of
`var i = 0; for (; i < 3; i = i + 1) continue;` yields exactly the
desugared program `c10Prog`. -/
theorem c10_parse_program :
    parseTokens 40 c10Toks =
      .ok c10Prog { tokens := c10Toks, current := 20, errors := [] } := by
  have b1 : pMatch [.BREAK] { tokens := c10Toks, current := 5, errors := [] } =
      .ok false { tokens := c10Toks, current := 5, errors := [] } := by rfl
  have b2 : pMatch [.CONTINUE] { tokens := c10Toks, current := 5, errors := [] } =
      .ok false { tokens := c10Toks, current := 5, errors := [] } := by rfl
  have b3 : pMatch [.FOR] { tokens := c10Toks, current := 5, errors := [] } =
      .ok true { tokens := c10Toks, current := 6, errors := [] } := by rfl
  have hstmt : pStatement (36 + 1) { tokens := c10Toks, current := 5, errors := [] } =
      .ok c10While { tokens := c10Toks, current := 20, errors := [] } := by
    simp [pStatement, pBind, b1, b2, b3, c10_for_parse]
  have d1 : pMatch [.CLASS] { tokens := c10Toks, current := 5, errors := [] } =
      .ok false { tokens := c10Toks, current := 5, errors := [] } := by rfl
  have d2 : pMatch [.FUN] { tokens := c10Toks, current := 5, errors := [] } =
      .ok false { tokens := c10Toks, current := 5, errors := [] } := by rfl
  have d3 : pMatch [.VAR] { tokens := c10Toks, current := 5, errors := [] } =
      .ok false { tokens := c10Toks, current := 5, errors := [] } := by rfl
  have hdecl2 : pDeclaration (37 + 1) { tokens := c10Toks, current := 5, errors := [] } =
      .ok (some c10While) { tokens := c10Toks, current := 20, errors := [] } := by
    simp [pDeclaration, pBind, d1, d2, d3, hstmt]
  have hdecl1 : pDeclaration (38 + 1) { tokens := c10Toks, current := 0, errors := [] } =
      .ok (some (Stmt.varStmt (mkTok 1 .IDENTIFIER "i") (some (.literal (.num 0)))))
        { tokens := c10Toks, current := 5, errors := [] } := by rfl
  have e2 : pIsAtEnd { tokens := c10Toks, current := 5, errors := [] } =
      .ok false { tokens := c10Toks, current := 5, errors := [] } := by rfl
  have e3 : pIsAtEnd { tokens := c10Toks, current := 20, errors := [] } =
      .ok true { tokens := c10Toks, current := 20, errors := [] } := by rfl
  have l38 : parseLoop (37 + 1)
      [Stmt.varStmt (mkTok 1 .IDENTIFIER "i") (some (.literal (.num 0))), c10While]
      { tokens := c10Toks, current := 20, errors := [] } =
      .ok c10Prog { tokens := c10Toks, current := 20, errors := [] } := by
    rw [parseLoop_succ]
    simp [pBind, e3, c10Prog]
  have l39 : parseLoop (38 + 1)
      [Stmt.varStmt (mkTok 1 .IDENTIFIER "i") (some (.literal (.num 0)))]
      { tokens := c10Toks, current := 5, errors := [] } =
      .ok c10Prog { tokens := c10Toks, current := 20, errors := [] } := by
    rw [parseLoop_succ]
    simp [pBind, e2, hdecl2, l38]
  have e1 : pIsAtEnd { tokens := c10Toks, current := 0, errors := [] } =
      .ok false { tokens := c10Toks, current := 0, errors := [] } := by rfl
  have ltop : parseLoop (39 + 1) [] { tokens := c10Toks, current := 0, errors := [] } =
      .ok c10Prog { tokens := c10Toks, current := 20, errors := [] } := by
    rw [parseLoop_succ]
    simp [pBind, e1, hdecl1, l39]
  exact ltop

/-- C10: the parser desugars
`var i = 0; for (; i < 3; i = i + 1) continue;` into a `While` whose body
is the synthesized block `[continue, Expression(i = i + 1)]`; executing the
program, the `continue` unwinds past the increment statement to the `while`
dispatcher on every iteration, so the increment is never evaluated — for
every fuel the execution is still running, in a state where `i` is still
`0` (only discarded block frames accumulate).  The loop's only progress
would be its increment clause, so the program does not terminate. -/
theorem c10_continue_skips_increment :
    parseTokens 40 c10Toks =
      .ok c10Prog { tokens := c10Toks, current := 20, errors := [] } ∧
    ∀ (c : Int) (fuel : Nat),
      execSeq fuel c10Prog (initState c) = .timeout (initState c) ∨
      ∃ k, execSeq fuel c10Prog (initState c) = .timeout (c10State c k) := by
  refine ⟨c10_parse_program, ?_⟩
  intro c fuel
  match fuel with
  | 0 => exact Or.inl rfl
  | 1 => exact Or.inl (by rfl)
  | 2 => exact Or.inl (by rfl)
  | f + 3 =>
    obtain ⟨k2, h2⟩ := c10_while_diverges c f 0
    have hvar : execStmt (f + 2)
        (Stmt.varStmt (mkTok 1 .IDENTIFIER "i") (some (.literal (.num 0))))
        (initState c) = .ok () (c10State c 0) := by rfl
    have hstep : execStmt (f + 1) c10While (c10State c 0) =
        .timeout (c10State c k2) := by
      simp only [execStmt, c10While, h2]
    have hseq1 : execSeq (f + 2) [c10While] (c10State c 0) =
        .timeout (c10State c k2) := by
      show execSeq (f + 1 + 1) [c10While] (c10State c 0) = _
      simp only [execSeq, bindR]
      rw [hstep]
    refine Or.inr ⟨k2, ?_⟩
    show execSeq (f + 2 + 1) c10Prog (initState c) = _
    simp only [c10Prog, execSeq, bindR]
    rw [hvar]
    exact hseq1

end Plox
